import Mathlib

/-!
# Walter: host-side motion execution (`TrajectoryExecution.cpp`)

A shallow embedding of the sample scheduler (`notifyNewPose`, `heartBeatSendOp`), of the
lifecycle controller (`startupBot`, `teardownBot`, `emergencyStopBot`) and of the commands
given as strings (`runTrajectory`, `setPose`, `setAnglesAsString`) of
`src/code/WalterServer/src/TrajectoryExecution.cpp`.

Conventions of the embedding:

* `uint32_t` values are natural numbers, arithmetic on them is reduced modulo `2^32`
  (`toUInt32`); `int` values are integers (`toInt32` where a product may leave the range).
* `rational` (the floating-point type of the angle code) is idealised as `ℚ`; `fabs`, `max`
  and `min` are the exact operations.
* `CortexController` (the actuator link) is an external collaborator.  What it answers is
  a stream of replies held in the state; every call consumes the next reply and is recorded,
  with the boolean it returned, in a trace.  `delay` is recorded in the same trace.
* Logging changes nothing that is modelled and is left out, except in the commands given
  as strings, where the error log is the only thing a failed parse adds.
* The parsers (`fromString`) and the trajectory player are external; a parse enters as its
  result, the calls into the player are recorded as effects.
-/

namespace Walter

/-! ## Machine integers -/

/-- Conversion of an integer value to `uint32_t`: reduction modulo `2^32`. -/
def toUInt32 (x : Int) : Nat := (x % 4294967296).toNat

/-- Conversion of an integer value to a 32-bit `int` (two's complement wrap). -/
def toInt32 (x : Int) : Int := (x + 2147483648) % 4294967296 - 2147483648

/-! ## The actuator link -/

/-- The operations of `CortexController` that `TrajectoryExecution.cpp` invokes. -/
inductive Call where
  | info
  | disableBot
  | setupBot
  | enableBot
  | getAngles
  | power (value : Bool)
  | move (angles : List ℚ) (duration : ℚ)
  | communicationOk
  deriving DecidableEq

/-- One entry of the trace: a link call together with the boolean it returned, or a
blocking `delay` with its argument (in milliseconds). -/
inductive Event where
  | link (call : Call) (ok : Bool)
  | delay (ms : ℚ)
  deriving DecidableEq

/-- What the link answers to one call.  `ok` is the returned boolean; `powered`, `setuped`
and `enabled` are the output parameters of `info`; `angles` are the `currentAngle` fields
that `getAngles` writes.  A call reads the fields that concern it.  The flags of a failed
`info` are whatever the reply holds, so quantifying over replies covers output parameters
that were left untouched. -/
structure Reply where
  ok : Bool
  powered : Bool
  setuped : Bool
  enabled : Bool
  angles : List ℚ

/-- A pose as far as `notifyNewPose` reads it: its joint angles. -/
structure Pose where
  angles : List ℚ

/-- Constants and helpers that `TrajectoryExecution.cpp` uses and that are declared
elsewhere: the number of actuators, `JointAngles::getDefaultPosition()` and the
conversion `degrees`. -/
structure BotConfig where
  NumberOfActuators : Nat
  defaultPosition : List ℚ
  degrees : ℚ → ℚ

/-! ## State -/

/-- The members of `TrajectoryExecution` that the embedded functions touch
(`lastLoopInvocation`, `heartbeatSend`, `botIsUpAndRunning`, and the sample rate that
`getSampleRate()` returns), together with the environment: the replies the link is still
going to give, the trace of calls made so far, and how often the trajectory node name was
handed to the command dispatcher.

The members are declared in `TrajectoryExecution.h` and `TrajectoryPlayer.h`, which are not
among the sources.  `lastLoopInvocation` is taken to be a `uint32_t` like the `now` it is
compared with, and the sample rate an `int` like the parameter of `setup` and the
`duration` computed from it. -/
structure TrajectoryExecution where
  lastLoopInvocation : Nat
  sampleRate : Int
  heartbeatSend : Bool
  botIsUpAndRunning : Bool
  replies : Nat → Reply
  trace : List Event
  nodeNamesSet : Nat

namespace TrajectoryExecution

/-- A call of the link: take the next reply and record the call with its result. -/
def linkCall (s : TrajectoryExecution) (c : Call) : Reply × TrajectoryExecution :=
  (s.replies 0,
   { s with replies := fun n => s.replies (n + 1),
            trace := s.trace ++ [Event.link c (s.replies 0).ok] })

/-- The blocking wait `delay(ms)`. -/
def delay (s : TrajectoryExecution) (ms : ℚ) : TrajectoryExecution :=
  { s with trace := s.trace ++ [Event.delay ms] }

end TrajectoryExecution

/-- The accessor `TrajectoryExecution::isBotUpAndReady`. -/
def isBotUpAndReady (s : TrajectoryExecution) : Bool := s.botIsUpAndRunning

/-! ## Sample scheduler -/

/-- The gate of `notifyNewPose`: `now >= lastLoopInvocation + getSampleRate()`, evaluated
in `uint32_t`. -/
def gateOpen (now : Nat) (s : TrajectoryExecution) : Bool :=
  decide (toUInt32 (s.lastLoopInvocation + s.sampleRate) ≤ now)

/-- The function `TrajectoryExecution::notifyNewPose`; `now` is the value read from
`millis()`. -/
def notifyNewPose (pPose : Pose) (now : Nat) (s : TrajectoryExecution) : TrajectoryExecution :=
  let s1 :=
    if gateOpen now s then
      let s2 :=
        if s.lastLoopInvocation < toUInt32 (now - s.sampleRate) then
          { s with lastLoopInvocation := now }
        else
          { s with lastLoopInvocation := toUInt32 (s.lastLoopInvocation + s.sampleRate) }
      let c := s2.linkCall Call.communicationOk
      if c.1.ok then
        let duration : Int := Int.tdiv (toInt32 (s.sampleRate * 200)) 100
        let m := c.2.linkCall (Call.move pPose.angles duration)
        { m.2 with heartbeatSend := m.1.ok }
      else
        { c.2 with heartbeatSend := false }
    else s
  { s1 with nodeNamesSet := s1.nodeNamesSet + 1 }

/-- The function `TrajectoryExecution::heartBeatSendOp`. -/
def heartBeatSendOp (s : TrajectoryExecution) : Bool × TrajectoryExecution :=
  if s.heartbeatSend then (true, { s with heartbeatSend := false }) else (false, s)

/-! ## Lifecycle controller -/

/-- The loop `maxAngleDiff = max(maxAngleDiff, fabs(default[i] - state[i].currentAngle))`
over all actuators, started from `start`. -/
def maxAngleLoop (cfg : BotConfig) (state : List ℚ) (start : ℚ) : ℚ :=
  (List.range cfg.NumberOfActuators).foldl
    (fun m i => max m |cfg.defaultPosition.getD i 0 - state.getD i 0|) start

/-- The loop of the reset check of `startupBot`:
`maxAngleDiff = min(maxAngleDiff, fabs(default[i] - state[i].currentAngle))`. -/
def minAngleLoop (cfg : BotConfig) (state : List ℚ) (start : ℚ) : ℚ :=
  (List.range cfg.NumberOfActuators).foldl
    (fun m i => min m |cfg.defaultPosition.getD i 0 - state.getD i 0|) start

/-- Lines 198 to 243 of `startupBot`, reached once `enableBot` has succeeded: the move to
the default position, the wait, the second `getAngles` and the check of the reset
position.  `initialAngles` is what the first `getAngles` read. -/
def startupHoming (cfg : BotConfig) (initialAngles : List ℚ) (s : TrajectoryExecution) :
    Bool × TrajectoryExecution :=
  let maxAngleDiff := maxAngleLoop cfg initialAngles 0
  let duration_ms : ℚ := cfg.degrees maxAngleDiff / 20 * 1000
  let mv := s.linkCall (Call.move cfg.defaultPosition duration_ms)
  if !mv.1.ok then (false, (mv.2.linkCall (Call.power false)).2) else
  let w := mv.2.delay (duration_ms + 200)
  let reset := w.linkCall Call.getAngles
  if !reset.1.ok then (false, (reset.2.linkCall (Call.power false)).2) else
  let checked := minAngleLoop cfg reset.1.angles maxAngleDiff
  if checked > 1 then (false, (reset.2.linkCall (Call.power false)).2) else
  (true, { reset.2 with botIsUpAndRunning := true })

/-- Lines 191 to 196 of `startupBot` and what follows them: `enableBot`, then the homing. -/
def startupEnable (cfg : BotConfig) (initialAngles : List ℚ) (s : TrajectoryExecution) :
    Bool × TrajectoryExecution :=
  let en := s.linkCall Call.enableBot
  if !en.1.ok then (false, (en.2.linkCall (Call.power false)).2) else
  startupHoming cfg initialAngles en.2

/-- Lines 166 to 189 of `startupBot` and what follows them: the flag is cleared, then
`setupBot`, the first `getAngles`, and `power(true)` when `powered` is false.  `powered`
is the local variable as the status queries left it. -/
def startupSetup (cfg : BotConfig) (powered : Bool) (s : TrajectoryExecution) :
    Bool × TrajectoryExecution :=
  let su := ({ s with botIsUpAndRunning := false }).linkCall Call.setupBot
  if !su.1.ok then (false, su.2) else
  let initial := su.2.linkCall Call.getAngles
  if !initial.1.ok then (false, initial.2) else
  if !powered then
    let p := initial.2.linkCall (Call.power true)
    if !p.1.ok then (false, p.2) else
    startupEnable cfg initial.1.angles p.2
  else startupEnable cfg initial.1.angles initial.2

/-- The function `TrajectoryExecution::startupBot`: the status query and the repair of the
zombie state (lines 155 to 164), then the rest of the procedure. -/
def startupBot (cfg : BotConfig) (s : TrajectoryExecution) : Bool × TrajectoryExecution :=
  let i1 := s.linkCall Call.info
  if i1.1.ok && !i1.1.powered && i1.1.enabled then
    let d := ({ i1.2 with botIsUpAndRunning := false }).linkCall Call.disableBot
    let i2 := d.2.linkCall Call.info
    startupSetup cfg i2.1.powered i2.2
  else startupSetup cfg i1.1.powered i1.2

/-- The function `TrajectoryExecution::teardownBot`. -/
def teardownBot (cfg : BotConfig) (s : TrajectoryExecution) : Bool × TrajectoryExecution :=
  let i1 := s.linkCall Call.info
  if !i1.1.ok then
    (false, (({ i1.2 with botIsUpAndRunning := false }).linkCall (Call.power false)).2)
  else
  if i1.1.powered && i1.1.enabled && i1.1.setuped then
    let cur := i1.2.linkCall Call.getAngles
    if !cur.1.ok then
      (false, (({ cur.2 with botIsUpAndRunning := false }).linkCall (Call.power false)).2)
    else
    let maxAngleDiff := maxAngleLoop cfg cur.1.angles 0
    let duration_ms : ℚ := 200 + cfg.degrees maxAngleDiff / 20 * 1000
    let mv := cur.2.linkCall (Call.move cfg.defaultPosition duration_ms)
    let w := mv.2.delay duration_ms
    (true, (({ w with botIsUpAndRunning := false }).linkCall (Call.power false)).2)
  else
    (true, (({ i1.2 with botIsUpAndRunning := false }).linkCall (Call.power false)).2)

/-- The function `TrajectoryExecution::emergencyStopBot`. -/
def emergencyStopBot (s : TrajectoryExecution) : Bool × TrajectoryExecution :=
  (true, (({ s with botIsUpAndRunning := false }).linkCall (Call.power false)).2)

/-! ## Concrete runs -/

/-- A reply that carries only a result. -/
def Reply.result (ok : Bool) : Reply :=
  { ok := ok, powered := false, setuped := false, enabled := false, angles := [] }

/-- A reply of `info`. -/
def Reply.status (ok powered setuped enabled : Bool) : Reply :=
  { ok := ok, powered := powered, setuped := setuped, enabled := enabled, angles := [] }

/-- A reply of `getAngles`. -/
def Reply.readAngles (ok : Bool) (angles : List ℚ) : Reply :=
  { ok := ok, powered := false, setuped := false, enabled := false, angles := angles }

/-- The object as the constructor leaves it (`lastLoopInvocation = 0`; the flags of the
static instance start out false), with the given sample rate, in front of a link that
gives the listed replies and reports success ever after. -/
def freshBot (sampleRate : Int) (replies : List Reply) : TrajectoryExecution :=
  { lastLoopInvocation := 0
    sampleRate := sampleRate
    heartbeatSend := false
    botIsUpAndRunning := false
    replies := fun n => replies.getD n (Reply.result true)
    trace := []
    nodeNamesSet := 0 }

/-- A robot with two actuators, default position zero, angles held in degrees. -/
def twoJoints : BotConfig :=
  { NumberOfActuators := 2, defaultPosition := [0, 0], degrees := fun x => x }

/-! ## Observing the trace -/

/-- The events recorded between the state `before` and the later state `after`. -/
def newEvents (before after : TrajectoryExecution) : List Event :=
  after.trace.drop before.trace.length

/-- Whether an event is a call of `power` with the given argument. -/
def Event.isPower (value : Bool) : Event → Bool
  | Event.link (Call.power v) _ => v == value
  | _ => false

/-- Whether an event is a call of `enableBot`. -/
def Event.isEnableBot : Event → Bool
  | Event.link Call.enableBot _ => true
  | _ => false

/-- Whether an event is a call of `move`. -/
def Event.isMove : Event → Bool
  | Event.link (Call.move _ _) _ => true
  | _ => false

/-- Whether an event is a call of `move` that returned `true`. -/
def Event.isMoveOk : Event → Bool
  | Event.link (Call.move _ _) ok => ok
  | _ => false

/-- Whether an event is a call of `getAngles`. -/
def Event.isGetAngles : Event → Bool
  | Event.link Call.getAngles _ => true
  | _ => false

/-- Whether an event is a call of `communicationOk`, made once per passed gate. -/
def Event.isCommunicationOk : Event → Bool
  | Event.link Call.communicationOk _ => true
  | _ => false

/-- Whether an event is a blocking wait. -/
def Event.isDelay : Event → Bool
  | Event.delay _ => true
  | _ => false

/-! ## Quantities and predicates of the statements, and the runs they are evaluated at -/

/-- The state `t` was reached from `s` by recording further events only. -/
def Extends (s t : TrajectoryExecution) : Prop :=
  t.trace = s.trace ++ newEvents s t

/-- What holds of the events that `startupBot` records after a successful `enableBot`:
a failure ends with `power(false)`, and neither `enableBot` nor `power(true)` occurs. -/
def HomingEvents (res : Bool) (ev : List Event) : Prop :=
  (res = false → ∃ ok, ev.getLast? = some (Event.link (Call.power false) ok)) ∧
  (res = true → ∀ e ∈ ev, e.isPower false = false) ∧
  (∀ e ∈ ev, e.isEnableBot = false ∧ e.isPower true = false)

/-- The events of `startupBot` from `setupBot` on, by the step at which it returns;
`powered` is the flag as the status queries left it. -/
def SetupEvents (powered res : Bool) (ev : List Event) : Prop :=
  (ev = [Event.link Call.setupBot false] ∧ res = false) ∨
  (ev = [Event.link Call.setupBot true, Event.link Call.getAngles false] ∧ res = false) ∨
  (powered = false ∧ res = false ∧
    ev = [Event.link Call.setupBot true, Event.link Call.getAngles true,
          Event.link (Call.power true) false]) ∨
  (∃ ok tail, HomingEvents res tail ∧
    ev = Event.link Call.setupBot true :: Event.link Call.getAngles true ::
          ((if powered then [] else [Event.link (Call.power true) true]) ++
            Event.link Call.enableBot ok :: tail))

/-- The events of a whole run of `startupBot`: the status query, the repair of the zombie
state when the query found one, then the events from `setupBot` on. -/
def StartupEvents (r0 r1 r2 : Reply) (res : Bool) (ev : List Event) : Prop :=
  ((r0.ok && !r0.powered && r0.enabled) = false ∧
    ∃ rest, SetupEvents r0.powered res rest ∧ ev = Event.link Call.info r0.ok :: rest) ∨
  ((r0.ok && !r0.powered && r0.enabled) = true ∧
    ∃ rest, SetupEvents r2.powered res rest ∧
      ev = Event.link Call.info r0.ok :: Event.link Call.disableBot r1.ok ::
            Event.link Call.info r2.ok :: rest)

/-- The result of the first `getAngles` call among the events, if there is one. -/
def initialGetAngles (ev : List Event) : Option Bool :=
  match ev.find? Event.isGetAngles with
  | some (Event.link _ ok) => some ok
  | _ => none

/-- A run in which the first `getAngles` fails: status fine and unpowered, `setupBot` ok. -/
def anglesFailRun : TrajectoryExecution :=
  freshBot 20 [Reply.status true false true false, Reply.result true, Reply.readAngles false []]

/-- A run in which the robot is already powered and `setupBot` fails. -/
def poweredSetupFailRun : TrajectoryExecution :=
  freshBot 20 [Reply.status true true true true, Reply.result false]

/-- A run in which `power(true)` succeeds and `enableBot` fails. -/
def enableFailRun : TrajectoryExecution :=
  freshBot 20 [Reply.status true false true false, Reply.result true,
    Reply.readAngles true [0, 0], Reply.result true, Reply.result false, Reply.result true]

/-- A run in which the status query of `teardownBot` fails. -/
def statusFailRun : TrajectoryExecution :=
  freshBot 20 [Reply.status false false false false, Reply.result true]

/-- A robot with seven actuators, default position zero, angles held in degrees. -/
def sevenJoints : BotConfig :=
  { NumberOfActuators := 7, defaultPosition := [0, 0, 0, 0, 0, 0, 0], degrees := fun x => x }

/-- A run in which every link call succeeds; the first `getAngles` reads joint 0 at 30,
the second one reads joint 0 at 0 and joint 1 at 45. -/
def misalignedRun : TrajectoryExecution :=
  freshBot 20 [Reply.status true false true false, Reply.result true,
    Reply.readAngles true [30, 0, 0, 0, 0, 0, 0], Reply.result true, Reply.result true,
    Reply.result true, Reply.readAngles true [0, 45, 0, 0, 0, 0, 0]]

/-- The duration that `notifyNewPose` hands to `move`: `getSampleRate()*200/100` in `int`. -/
def commandedDuration (s : TrajectoryExecution) : Int :=
  Int.tdiv (toInt32 (s.sampleRate * 200)) 100

/-- A scheduler with period 20 in front of a link whose `communicationOk` answers true and
whose `move` fails. -/
def moveFailsRun : TrajectoryExecution :=
  freshBot 20 [Reply.result true, Reply.result false]

/-- A scheduler with period 20 in front of a link whose `communicationOk` answers false. -/
def linkDownRun : TrajectoryExecution :=
  freshBot 20 [Reply.result false]

/-- A scheduler with period 10 and `lastLoopInvocation = 0`. -/
def period10 : TrajectoryExecution := freshBot 10 []

/-- The number of `move` commands among the events. -/
def moveCount (ev : List Event) : Nat := ev.countP Event.isMove

/-- The number of passed gates among the events: `communicationOk` is called once per
passed gate and nowhere else. -/
def gateCount (ev : List Event) : Nat := ev.countP Event.isCommunicationOk

/-- The two entry points of the scheduler, as a caller interleaves them. -/
inductive SchedulerOp where
  | notify (pPose : Pose) (now : Nat)
  | heartBeat

/-- Run a sequence of scheduler calls; the list holds what the `heartBeatSendOp` calls
returned, in order. -/
def runOps : List SchedulerOp → TrajectoryExecution → List Bool × TrajectoryExecution
  | [], s => ([], s)
  | SchedulerOp.notify pPose now :: ops, s => runOps ops (notifyNewPose pPose now s)
  | SchedulerOp.heartBeat :: ops, s =>
    ((heartBeatSendOp s).1 :: (runOps ops (heartBeatSendOp s).2).1,
     (runOps ops (heartBeatSendOp s).2).2)

/-- The number of `move` commands among the events that the link reported as successful. -/
def okMoveCount (ev : List Event) : Nat := ev.countP Event.isMoveOk

/-- One forwarded pose followed by two heartbeat queries. -/
def heartbeatOps : List SchedulerOp :=
  [SchedulerOp.notify ⟨[1, 2]⟩ 20, SchedulerOp.heartBeat, SchedulerOp.heartBeat]

/-- Call `notifyNewPose` once per entry, in order; an entry is the clock reading of the
call and the pose handed over. -/
def notifyAll : List (Nat × Pose) → TrajectoryExecution → TrajectoryExecution
  | [], s => s
  | c :: cs, s => notifyAll cs (notifyNewPose c.2 c.1 s)

/-- Two calls, at 0 ms and at 20 ms. -/
def earlierCalls : List (Nat × Pose) := [(0, ⟨[]⟩), (20, ⟨[]⟩)]

/-- Three calls whose clock readings span 19 ms, less than the period of 20 ms. -/
def burstCalls : List (Nat × Pose) := [(40, ⟨[1]⟩), (45, ⟨[2]⟩), (59, ⟨[3]⟩)]

/-- The duration of the homing move of `startupBot`, from the angles that the first
`getAngles` read: `degrees(maxAngleDiff)/speed_deg_per_s*1000` with 20 degrees per second. -/
def homingDuration (cfg : BotConfig) (initialAngles : List ℚ) : ℚ :=
  cfg.degrees (maxAngleLoop cfg initialAngles 0) / 20 * 1000

/-- The duration of the move of `teardownBot`, from the angles that `getAngles` read:
`200+degrees(maxAngleDiff)/speed_deg_per_s*1000.0` with 20 degrees per second. -/
def teardownDuration (cfg : BotConfig) (currentAngles : List ℚ) : ℚ :=
  200 + cfg.degrees (maxAngleLoop cfg currentAngles 0) / 20 * 1000

/-- Whether `m` is the maximum over the joints of the distance between the default
position and `state`, taken as 0 when there is no joint. -/
def IsMaxJointDistance (cfg : BotConfig) (state : List ℚ) (m : ℚ) : Prop :=
  0 ≤ m ∧
  (∀ i, i < cfg.NumberOfActuators → |cfg.defaultPosition.getD i 0 - state.getD i 0| ≤ m) ∧
  (0 < cfg.NumberOfActuators →
    ∃ i, i < cfg.NumberOfActuators ∧ m = |cfg.defaultPosition.getD i 0 - state.getD i 0|)

/-- Whether the status that `info` wrote is fully up: `powered && enabled && setuped`. -/
def Reply.fullyUp (r : Reply) : Bool := r.powered && r.enabled && r.setuped

/-- A run of `teardownBot` on a robot that is fully up, joint 0 standing at 30. -/
def teardownRun : TrajectoryExecution :=
  freshBot 20 [Reply.status true true true true, Reply.readAngles true [30, 0], Reply.result false,
    Reply.result false]

/-- A run of `teardownBot` on a robot that is fully up and whose `getAngles` fails. -/
def teardownAnglesFailRun : TrajectoryExecution :=
  freshBot 20 [Reply.status true true true true, Reply.readAngles false []]

/-- A run of `teardownBot` on a robot that is powered but not enabled. -/
def teardownIdleRun : TrajectoryExecution :=
  freshBot 20 [Reply.status true true true false]

/-- The gate update in the words of the unconditional resync: `notifyNewPose` with the two
branches of the update of `lastLoopInvocation` replaced by `lastLoopInvocation = now`. -/
def notifyNewPoseResync (pPose : Pose) (now : Nat) (s : TrajectoryExecution) :
    TrajectoryExecution :=
  let s1 :=
    if gateOpen now s then
      let s2 := { s with lastLoopInvocation := now }
      let c := s2.linkCall Call.communicationOk
      if c.1.ok then
        let duration : Int := Int.tdiv (toInt32 (s.sampleRate * 200)) 100
        let m := c.2.linkCall (Call.move pPose.angles duration)
        { m.2 with heartbeatSend := m.1.ok }
      else
        { c.2 with heartbeatSend := false }
    else s
  { s1 with nodeNamesSet := s1.nodeNamesSet + 1 }

/-- A scheduler with period 10 that last passed the gate at 30, with a heartbeat pending. -/
def pendingAt30 : TrajectoryExecution :=
  { freshBot 10 [] with lastLoopInvocation := 30, heartbeatSend := true }

/-- Whether an event is a call of `disableBot`. -/
def Event.isDisableBot : Event → Bool
  | Event.link Call.disableBot _ => true
  | _ => false

/-- The zombie state as `startupBot` tests it on the reply of the first status query:
`ok && !powered && enabled`. -/
def Reply.zombie (r : Reply) : Bool := r.ok && !r.powered && r.enabled

/-- The angles that the first `getAngles` of `startupBot` reads: its reply is the third of
the run, or the fifth after the repair of a zombie state. -/
def startupInitialAngles (s : TrajectoryExecution) : List ℚ :=
  if (s.replies 0).zombie then (s.replies 4).angles else (s.replies 2).angles

/-- The events of the homing of `startupBot`, by the step at which it ends; `a` are the
angles that the first `getAngles` read. -/
def HomingShape (cfg : BotConfig) (a : List ℚ) (ev : List Event) : Prop :=
  (∃ ok, ev = [Event.link (Call.move cfg.defaultPosition (homingDuration cfg a)) false,
                Event.link (Call.power false) ok]) ∨
  (∃ okg rest,
    ev = Event.link (Call.move cfg.defaultPosition (homingDuration cfg a)) true ::
          Event.delay (homingDuration cfg a + 200) :: Event.link Call.getAngles okg :: rest ∧
    (rest = [] ∨ ∃ ok, rest = [Event.link (Call.power false) ok]))

/-- The events of `startupBot` from `enableBot` on. -/
def EnableShape (cfg : BotConfig) (a : List ℚ) (ev : List Event) : Prop :=
  (∃ ok, ev = [Event.link Call.enableBot false, Event.link (Call.power false) ok]) ∨
  (∃ tail, HomingShape cfg a tail ∧ ev = Event.link Call.enableBot true :: tail)

/-- The events of `startupBot` from `setupBot` on; `a` are the angles in the reply to the
first `getAngles`, `powered` is the flag as the status queries left it. -/
def SetupShape (cfg : BotConfig) (a : List ℚ) (powered : Bool) (ev : List Event) : Prop :=
  ev = [Event.link Call.setupBot false] ∨
  ev = [Event.link Call.setupBot true, Event.link Call.getAngles false] ∨
  (powered = false ∧
    ev = [Event.link Call.setupBot true, Event.link Call.getAngles true,
          Event.link (Call.power true) false]) ∨
  (∃ tail, EnableShape cfg a tail ∧
    ev = Event.link Call.setupBot true :: Event.link Call.getAngles true ::
          ((if powered then [] else [Event.link (Call.power true) true]) ++ tail))

/-- The events of a whole run of `startupBot`. -/
def StartupShape (cfg : BotConfig) (s : TrajectoryExecution) (ev : List Event) : Prop :=
  ((s.replies 0).zombie = false ∧
    ∃ rest, SetupShape cfg (s.replies 2).angles (s.replies 0).powered rest ∧
      ev = Event.link Call.info (s.replies 0).ok :: rest) ∨
  ((s.replies 0).zombie = true ∧
    ∃ rest, SetupShape cfg (s.replies 4).angles (s.replies 2).powered rest ∧
      ev = Event.link Call.info (s.replies 0).ok :: Event.link Call.disableBot (s.replies 1).ok ::
            Event.link Call.info (s.replies 2).ok :: rest)

/-- The number of blocking waits among the events. -/
def delayCount (ev : List Event) : Nat := ev.countP Event.isDelay

/-- What the homing of `startupBot` does with `move` and `delay`, for the duration `d`:
at most one `move`, every `move` goes to the default position with duration `d`, at most
one wait, every wait lasts `d + 200`, a wait follows every successful `move`, and there is
no wait without one. -/
def HomingMoves (cfg : BotConfig) (d : ℚ) (ev : List Event) : Prop :=
  moveCount ev ≤ 1 ∧
  (∀ e ∈ ev, e.isMove = true → ∃ ok, e = Event.link (Call.move cfg.defaultPosition d) ok) ∧
  delayCount ev ≤ 1 ∧
  (∀ e ∈ ev, e.isDelay = true → e = Event.delay (d + 200)) ∧
  (Event.link (Call.move cfg.defaultPosition d) true ∈ ev ↔ Event.delay (d + 200) ∈ ev)

/-- A run in which the first status query finds a zombie state, the second query still
reports the robot enabled, and `setupBot` fails. -/
def zombieRun : TrajectoryExecution :=
  freshBot 20 [Reply.status true false true true, Reply.result true,
    Reply.status true false true true, Reply.result false]

/-- A run in which the status query fails and leaves `powered` true, every other call
succeeds and all joints stand at the default position. -/
def blindStatusRun : TrajectoryExecution :=
  freshBot 20 [Reply.status false true false false, Reply.result true,
    Reply.readAngles true [0, 0, 0, 0, 0, 0, 0], Reply.result true, Reply.result true,
    Reply.readAngles true [0, 0, 0, 0, 0, 0, 0]]

/-! ## Commands given as strings -/

/-- What the operations that take a string do to the trajectory player and the log; the
parsing itself (`fromString`) is done elsewhere and enters as its result. -/
inductive Effect where
  | logError
  | compile
  | playTrajectory
  | playerSetPose (pPose : Pose)
  | playerSetAngles (angles : List ℚ)

/-- Whether an effect is one of the downstream operations of the string commands
(`compile`, `playTrajectory`, `TrajectoryPlayer::setPose`, `TrajectoryPlayer::setAngles`). -/
def Effect.isDownstream : Effect → Bool
  | Effect.logError => false
  | _ => true

/-- The function `TrajectoryExecution::runTrajectory`; `ok` is what `fromString`
returned. -/
def runTrajectory (ok : Bool) : List Effect :=
  (if !ok then [Effect.logError] else []) ++ [Effect.compile, Effect.playTrajectory]

/-- The function `TrajectoryExecution::setPose`; `ok` is what `fromString` returned and
`pose` what it left in the local variable. -/
def setPose (ok : Bool) (pose : Pose) : List Effect :=
  (if !ok then [Effect.logError] else []) ++ [Effect.playerSetPose pose]

/-- Modelled from the spec: `TrajectoryPlayer::setAngles`, whose source is not available.
By the comment at its call in `setAnglesAsString` ("this will call notify new Pose, which
sends the pose to the bot") and the spec's pose source it invokes `notifyNewPose` once,
with the pose of the given angles; `now` is the clock reading of that call. -/
def playerSetAngles (angles : List ℚ) (now : Nat) (s : TrajectoryExecution) :
    TrajectoryExecution :=
  notifyNewPose { angles := angles } now s

/-- The function `TrajectoryExecution::setAnglesAsString`; `ok` and `angles` are what
`fromString` returned and parsed.  The result is the returned boolean, the state and the
effects on player and log. -/
def setAnglesAsString (ok : Bool) (angles : List ℚ) (now : Nat) (s : TrajectoryExecution) :
    (Bool × TrajectoryExecution) × List Effect :=
  if !ok then ((false, s), [Effect.logError])
  else (heartBeatSendOp (playerSetAngles angles now s), [Effect.playerSetAngles angles])

/-- A scheduler with period 10 right after the loop forwarded a pose at 30 ms with success:
the heartbeat is pending. -/
def afterLoopSend : TrajectoryExecution :=
  notifyNewPose { angles := [5] } 30 (freshBot 10 [])

/-! ## Emergency stop -/

/-- C4: from every state and for every reply of the link, `emergencyStopBot` records exactly
one event, the link call `power(false)` (so no `getAngles`, no `move`, no `delay`), leaves
the running flag false and returns true. -/
theorem C4_emergencyStopBot_powers_off (s : TrajectoryExecution) :
    newEvents s (emergencyStopBot s).2 = [Event.link (Call.power false) (s.replies 0).ok] ∧
    isBotUpAndReady (emergencyStopBot s).2 = false ∧
    (emergencyStopBot s).1 = true := by
  simp [emergencyStopBot, newEvents, isBotUpAndReady, TrajectoryExecution.linkCall]

/-! ## Startup: the running flag -/

theorem startupHoming_flag (cfg : BotConfig) (a : List ℚ) (s : TrajectoryExecution)
    (h : s.botIsUpAndRunning = false) :
    (startupHoming cfg a s).2.botIsUpAndRunning = (startupHoming cfg a s).1 := by
  unfold startupHoming
  simp only []
  split_ifs <;> simp [TrajectoryExecution.linkCall, TrajectoryExecution.delay, h]

theorem startupEnable_flag (cfg : BotConfig) (a : List ℚ) (s : TrajectoryExecution)
    (h : s.botIsUpAndRunning = false) :
    (startupEnable cfg a s).2.botIsUpAndRunning = (startupEnable cfg a s).1 := by
  unfold startupEnable
  simp only []
  split_ifs
  · simp [TrajectoryExecution.linkCall, h]
  · exact startupHoming_flag cfg a _ (by simp [TrajectoryExecution.linkCall, h])

theorem startupSetup_flag (cfg : BotConfig) (powered : Bool) (s : TrajectoryExecution) :
    (startupSetup cfg powered s).2.botIsUpAndRunning = (startupSetup cfg powered s).1 := by
  unfold startupSetup
  simp only []
  split_ifs
  · simp [TrajectoryExecution.linkCall]
  · simp [TrajectoryExecution.linkCall]
  · simp [TrajectoryExecution.linkCall]
  · exact startupEnable_flag cfg _ _ (by simp [TrajectoryExecution.linkCall])
  · exact startupEnable_flag cfg _ _ (by simp [TrajectoryExecution.linkCall])

theorem startupBot_flag (cfg : BotConfig) (s : TrajectoryExecution) :
    (startupBot cfg s).2.botIsUpAndRunning = (startupBot cfg s).1 := by
  unfold startupBot
  simp only []
  split_ifs <;> exact startupSetup_flag cfg _ _

/-- C8: after `startupBot` returns, the running flag is true exactly when `startupBot`
returned true, whatever the flag was before and whatever the link replies; in particular
a failed startup leaves the flag false. -/
theorem C8_running_flag_iff_startup_ok (cfg : BotConfig) (s : TrajectoryExecution) :
    (isBotUpAndReady (startupBot cfg s).2 = true ↔ (startupBot cfg s).1 = true) ∧
    isBotUpAndReady (startupBot cfg s).2 = (startupBot cfg s).1 := by
  unfold isBotUpAndReady
  rw [startupBot_flag]
  simp

/-! ## Startup: the events of each stage -/

theorem Extends.trans_events {s t u : TrajectoryExecution} (h1 : Extends s t)
    (h2 : Extends t u) :
    Extends s u ∧ newEvents s u = newEvents s t ++ newEvents t u := by
  unfold Extends at *
  have h3 : u.trace = s.trace ++ (newEvents s t ++ newEvents t u) := by
    rw [h2, h1, List.append_assoc]
  have h4 : newEvents s u = newEvents s t ++ newEvents t u := by
    conv_lhs => unfold newEvents
    rw [h3, List.drop_left]
  exact ⟨by rw [h4]; exact h3, h4⟩

theorem linkCall_events (s : TrajectoryExecution) (c : Call) :
    Extends s (s.linkCall c).2 ∧
    newEvents s (s.linkCall c).2 = [Event.link c (s.replies 0).ok] := by
  simp [Extends, newEvents, TrajectoryExecution.linkCall]

theorem startupHoming_events (cfg : BotConfig) (a : List ℚ) (s : TrajectoryExecution) :
    Extends s (startupHoming cfg a s).2 ∧
    HomingEvents (startupHoming cfg a s).1 (newEvents s (startupHoming cfg a s).2) := by
  unfold startupHoming
  simp only []
  split_ifs <;>
    simp [Extends, HomingEvents, newEvents, TrajectoryExecution.linkCall,
      TrajectoryExecution.delay, Event.isEnableBot, Event.isPower]

theorem startupEnable_events (cfg : BotConfig) (a : List ℚ) (s : TrajectoryExecution) :
    Extends s (startupEnable cfg a s).2 ∧
    ∃ ok tail, newEvents s (startupEnable cfg a s).2 = Event.link Call.enableBot ok :: tail ∧
      HomingEvents (startupEnable cfg a s).1 tail := by
  unfold startupEnable
  simp only []
  split_ifs
  · refine ⟨by simp [Extends, newEvents, TrajectoryExecution.linkCall], (s.replies 0).ok,
      [Event.link (Call.power false) (s.replies 1).ok], ?_, ?_⟩
    · simp [newEvents, TrajectoryExecution.linkCall]
    · simp [HomingEvents, Event.isEnableBot, Event.isPower]
  · obtain ⟨h1, h2⟩ := linkCall_events s Call.enableBot
    obtain ⟨h3, h4⟩ := startupHoming_events cfg a (s.linkCall Call.enableBot).2
    obtain ⟨h5, h6⟩ := h1.trans_events h3
    exact ⟨h5, (s.replies 0).ok, _, by rw [h6, h2]; rfl, h4⟩

theorem startupSetup_events (cfg : BotConfig) (powered : Bool) (s : TrajectoryExecution) :
    Extends s (startupSetup cfg powered s).2 ∧
    SetupEvents powered (startupSetup cfg powered s).1
      (newEvents s (startupSetup cfg powered s).2) := by
  unfold startupSetup
  simp only []
  split_ifs with h1 h2 h3 h4
  · simp [TrajectoryExecution.linkCall] at h1
    simp [Extends, SetupEvents, newEvents, TrajectoryExecution.linkCall, h1]
  · simp [TrajectoryExecution.linkCall] at h1 h2
    simp [Extends, SetupEvents, newEvents, TrajectoryExecution.linkCall, h1, h2]
  · simp [TrajectoryExecution.linkCall] at h1 h2 h4
    simp at h3
    simp [Extends, SetupEvents, newEvents, TrajectoryExecution.linkCall, h1, h2, h3, h4]
  · simp [TrajectoryExecution.linkCall] at h1 h2 h4
    simp at h3
    have e1 : Extends s (((({ s with botIsUpAndRunning := false } :
        TrajectoryExecution).linkCall Call.setupBot).2.linkCall Call.getAngles).2.linkCall
        (Call.power true)).2 := by
      simp [Extends, newEvents, TrajectoryExecution.linkCall]
    obtain ⟨h5, ok, tail, h6, h7⟩ := startupEnable_events cfg (s.replies 1).angles
      (((({ s with botIsUpAndRunning := false } : TrajectoryExecution).linkCall
        Call.setupBot).2.linkCall Call.getAngles).2.linkCall (Call.power true)).2
    obtain ⟨h8, h9⟩ := e1.trans_events h5
    refine ⟨h8, Or.inr (Or.inr (Or.inr ⟨ok, tail, h7, ?_⟩))⟩
    refine h9.trans ?_
    rw [h6]
    simp [newEvents, TrajectoryExecution.linkCall, h1, h2, h3, h4]
  · simp [TrajectoryExecution.linkCall] at h1 h2
    simp at h3
    have e1 : Extends s ((({ s with botIsUpAndRunning := false } :
        TrajectoryExecution).linkCall Call.setupBot).2.linkCall Call.getAngles).2 := by
      simp [Extends, newEvents, TrajectoryExecution.linkCall]
    obtain ⟨h5, ok, tail, h6, h7⟩ := startupEnable_events cfg (s.replies 1).angles
      ((({ s with botIsUpAndRunning := false } : TrajectoryExecution).linkCall
        Call.setupBot).2.linkCall Call.getAngles).2
    obtain ⟨h8, h9⟩ := e1.trans_events h5
    refine ⟨h8, Or.inr (Or.inr (Or.inr ⟨ok, tail, h7, ?_⟩))⟩
    refine h9.trans ?_
    rw [h6]
    simp [newEvents, TrajectoryExecution.linkCall, h1, h2, h3]

theorem startupBot_events (cfg : BotConfig) (s : TrajectoryExecution) :
    Extends s (startupBot cfg s).2 ∧
    StartupEvents (s.replies 0) (s.replies 1) (s.replies 2) (startupBot cfg s).1
      (newEvents s (startupBot cfg s).2) := by
  unfold startupBot
  simp only []
  split_ifs with h1
  · have e1 : Extends s ((({ (s.linkCall Call.info).2 with botIsUpAndRunning := false } :
        TrajectoryExecution).linkCall Call.disableBot).2.linkCall Call.info).2 := by
      simp [Extends, newEvents, TrajectoryExecution.linkCall]
    obtain ⟨h2, h3⟩ := startupSetup_events cfg (s.replies 2).powered
      ((({ (s.linkCall Call.info).2 with botIsUpAndRunning := false } :
        TrajectoryExecution).linkCall Call.disableBot).2.linkCall Call.info).2
    obtain ⟨h4, h5⟩ := e1.trans_events h2
    refine ⟨h4, Or.inr ⟨h1, _, h3, ?_⟩⟩
    refine h5.trans ?_
    simp [newEvents, TrajectoryExecution.linkCall]
  · obtain ⟨e1, e2⟩ := linkCall_events s Call.info
    obtain ⟨h2, h3⟩ := startupSetup_events cfg (s.replies 0).powered (s.linkCall Call.info).2
    obtain ⟨h4, h5⟩ := e1.trans_events h2
    refine ⟨h4, Or.inl ⟨by simpa using h1, _, h3, ?_⟩⟩
    refine h5.trans ?_
    rw [e2]
    rfl

/-! ## Startup: fail-closed ordering -/

/-- C3: when the initial `getAngles` call of `startupBot` reports failure, `startupBot`
returns false and none of its link calls is `power(true)`, `enableBot` or `move`. -/
theorem C3_no_power_without_initial_angles (cfg : BotConfig) (s : TrajectoryExecution)
    (h : initialGetAngles (newEvents s (startupBot cfg s).2) = some false) :
    (startupBot cfg s).1 = false ∧
    ∀ e ∈ newEvents s (startupBot cfg s).2,
      e.isPower true = false ∧ e.isEnableBot = false ∧ e.isMove = false := by
  obtain ⟨-, h1⟩ := startupBot_events cfg s
  rcases h1 with ⟨-, rest, h2, h3⟩ | ⟨-, rest, h2, h3⟩ <;>
  · rw [h3] at h ⊢
    rcases h2 with ⟨h4, h5⟩ | ⟨h4, h5⟩ | ⟨-, h5, h4⟩ | ⟨ok, tail, -, h4⟩ <;>
    · subst h4
      simp [initialGetAngles, List.find?, Event.isGetAngles] at h
      try simp [h5, Event.isPower, Event.isEnableBot, Event.isMove]

/-- C3 at `anglesFailRun`: the first `getAngles` fails, `startupBot` returns false after
`info`, `setupBot` and `getAngles` only. -/
theorem C3_no_power_without_initial_angles_witness :
    initialGetAngles (newEvents anglesFailRun (startupBot twoJoints anglesFailRun).2)
      = some false ∧
    ((startupBot twoJoints anglesFailRun).1 = false ∧
      ∀ e ∈ newEvents anglesFailRun (startupBot twoJoints anglesFailRun).2,
        e.isPower true = false ∧ e.isEnableBot = false ∧ e.isMove = false) :=
  ⟨by decide, C3_no_power_without_initial_angles twoJoints anglesFailRun (by decide)⟩

/-! ## Power-down on failure -/

theorem getLast?_append_some {l t : List Event} {x : Event} (h : t.getLast? = some x) :
    (l ++ t).getLast? = some x := by
  simp [List.getLast?_append, h]

theorem getLast?_cons_some {a : Event} {t : List Event} {x : Event}
    (h : t.getLast? = some x) : (a :: t).getLast? = some x :=
  getLast?_append_some (l := [a]) h

theorem teardownBot_false_events (cfg : BotConfig) (s : TrajectoryExecution)
    (h : (teardownBot cfg s).1 = false) :
    ∃ ok, (newEvents s (teardownBot cfg s).2).getLast? =
      some (Event.link (Call.power false) ok) := by
  unfold teardownBot at h ⊢
  simp only [] at h ⊢
  split_ifs at h ⊢ <;>
    simp [newEvents, TrajectoryExecution.linkCall, TrajectoryExecution.delay] at h ⊢

/-- C7, as stated, fails: the status query reports the robot powered, `setupBot` fails,
`startupBot` returns false and no `power(false)` call has been made. -/
theorem C7_counterexample :
    (poweredSetupFailRun.replies 0).ok = true ∧
    (poweredSetupFailRun.replies 0).powered = true ∧
    (startupBot twoJoints poweredSetupFailRun).1 = false ∧
    newEvents poweredSetupFailRun (startupBot twoJoints poweredSetupFailRun).2 =
      [Event.link Call.info true, Event.link Call.setupBot false] ∧
    ∀ e ∈ newEvents poweredSetupFailRun (startupBot twoJoints poweredSetupFailRun).2,
      e.isPower false = false := by
  decide

/-- C7, amended: when `startupBot` returns false after it has called `enableBot` (which it
does in every run where `power(true)` returned ok), or when `teardownBot` returns false,
the last event before returning is the link call `power(false)`; when `startupBot` returns
false without having called `enableBot` (a failure of `setupBot`, of the first `getAngles`
or of `power(true)`), it has made no `power(false)` call. -/
theorem C7_power_down_after_enable (cfg : BotConfig) (s : TrajectoryExecution) :
    ((startupBot cfg s).1 = false →
      (∃ e ∈ newEvents s (startupBot cfg s).2, e.isEnableBot = true) →
      ∃ ok, (newEvents s (startupBot cfg s).2).getLast? =
        some (Event.link (Call.power false) ok)) ∧
    (Event.link (Call.power true) true ∈ newEvents s (startupBot cfg s).2 →
      ∃ e ∈ newEvents s (startupBot cfg s).2, e.isEnableBot = true) ∧
    ((startupBot cfg s).1 = false →
      (∀ e ∈ newEvents s (startupBot cfg s).2, e.isEnableBot = false) →
      ∀ e ∈ newEvents s (startupBot cfg s).2, e.isPower false = false) ∧
    ((teardownBot cfg s).1 = false →
      ∃ ok, (newEvents s (teardownBot cfg s).2).getLast? =
        some (Event.link (Call.power false) ok)) := by
  refine ⟨?_, ?_, ?_, teardownBot_false_events cfg s⟩
  · intro hres hen
    obtain ⟨-, h1⟩ := startupBot_events cfg s
    rcases h1 with ⟨-, rest, h2, h3⟩ | ⟨-, rest, h2, h3⟩ <;>
    · rw [h3] at hen ⊢
      rcases h2 with ⟨h4, -⟩ | ⟨h4, -⟩ | ⟨-, -, h4⟩ | ⟨ok, tail, h5, h4⟩
      · subst h4; simp [Event.isEnableBot] at hen
      · subst h4; simp [Event.isEnableBot] at hen
      · subst h4; simp [Event.isEnableBot] at hen
      · obtain ⟨ok2, h6⟩ := h5.1 hres
        refine ⟨ok2, ?_⟩
        subst h4
        split_ifs <;>
        · simp only [List.cons_append, List.nil_append]
          repeat apply getLast?_cons_some
          exact h6
  · intro hpw
    obtain ⟨-, h1⟩ := startupBot_events cfg s
    rcases h1 with ⟨-, rest, h2, h3⟩ | ⟨-, rest, h2, h3⟩ <;>
    · rw [h3] at hpw ⊢
      rcases h2 with ⟨h4, -⟩ | ⟨h4, -⟩ | ⟨-, -, h4⟩ | ⟨ok, tail, h5, h4⟩
      · subst h4; simp at hpw
      · subst h4; simp at hpw
      · subst h4; simp at hpw
      · subst h4
        exact ⟨Event.link Call.enableBot ok, by simp, rfl⟩
  · intro hres hen
    obtain ⟨-, h1⟩ := startupBot_events cfg s
    rcases h1 with ⟨-, rest, h2, h3⟩ | ⟨-, rest, h2, h3⟩ <;>
    · rw [h3] at hen ⊢
      rcases h2 with ⟨h4, -⟩ | ⟨h4, -⟩ | ⟨-, -, h4⟩ | ⟨ok, tail, h5, h4⟩
      · subst h4; simp [Event.isPower]
      · subst h4; simp [Event.isPower]
      · subst h4; simp [Event.isPower]
      · subst h4
        have := hen (Event.link Call.enableBot ok) (by simp)
        simp [Event.isEnableBot] at this

/-- C7, amended, at three runs: `enableBot` fails after `power(true)` succeeded and the
run ends with `power(false)`; `setupBot` fails and no `power(false)` is made; the status
query of `teardownBot` fails and the run ends with `power(false)`. -/
theorem C7_power_down_after_enable_witness :
    ((startupBot twoJoints enableFailRun).1 = false ∧
      Event.link (Call.power true) true ∈
        newEvents enableFailRun (startupBot twoJoints enableFailRun).2 ∧
      (∃ e ∈ newEvents enableFailRun (startupBot twoJoints enableFailRun).2,
        e.isEnableBot = true) ∧
      ∃ ok, (newEvents enableFailRun (startupBot twoJoints enableFailRun).2).getLast? =
        some (Event.link (Call.power false) ok)) ∧
    ((startupBot twoJoints poweredSetupFailRun).1 = false ∧
      ∀ e ∈ newEvents poweredSetupFailRun (startupBot twoJoints poweredSetupFailRun).2,
        e.isPower false = false) ∧
    ((teardownBot twoJoints statusFailRun).1 = false ∧
      ∃ ok, (newEvents statusFailRun (teardownBot twoJoints statusFailRun).2).getLast? =
        some (Event.link (Call.power false) ok)) :=
  ⟨⟨by decide, by decide,
      (C7_power_down_after_enable twoJoints enableFailRun).2.1 (by decide),
      (C7_power_down_after_enable twoJoints enableFailRun).1 (by decide) (by decide)⟩,
    ⟨by decide,
      (C7_power_down_after_enable twoJoints poweredSetupFailRun).2.2.1 (by decide)
        (by decide)⟩,
    ⟨by decide, (C7_power_down_after_enable twoJoints statusFailRun).2.2.2 (by decide)⟩⟩

/-! ## Startup: the check of the reset position -/

/-- The run of `startupBot` in which the robot is found unpowered and not enabled, every
link call succeeds and the check of the reset position passes. -/
theorem startupBot_success_run (cfg : BotConfig) (s : TrajectoryExecution)
    (h0 : (s.replies 0).ok = true) (hp : (s.replies 0).powered = false)
    (he : (s.replies 0).enabled = false)
    (h1 : (s.replies 1).ok = true) (h2 : (s.replies 2).ok = true)
    (h3 : (s.replies 3).ok = true) (h4 : (s.replies 4).ok = true)
    (h5 : (s.replies 5).ok = true) (h6 : (s.replies 6).ok = true)
    (hmin : minAngleLoop cfg (s.replies 6).angles
      (maxAngleLoop cfg (s.replies 2).angles 0) ≤ 1) :
    (startupBot cfg s).1 = true ∧
    isBotUpAndReady (startupBot cfg s).2 = true ∧
    newEvents s (startupBot cfg s).2 =
      [Event.link Call.info true, Event.link Call.setupBot true,
       Event.link Call.getAngles true, Event.link (Call.power true) true,
       Event.link Call.enableBot true,
       Event.link (Call.move cfg.defaultPosition
         (cfg.degrees (maxAngleLoop cfg (s.replies 2).angles 0) / 20 * 1000)) true,
       Event.delay (cfg.degrees (maxAngleLoop cfg (s.replies 2).angles 0) / 20 * 1000 + 200),
       Event.link Call.getAngles true] := by
  have hmin2 : ¬ (1 < minAngleLoop cfg (s.replies 6).angles
      (maxAngleLoop cfg (s.replies 2).angles 0)) := not_lt.mpr hmin
  simp [startupBot, startupSetup, startupEnable, startupHoming, isBotUpAndReady,
    newEvents, TrajectoryExecution.linkCall, TrajectoryExecution.delay,
    h0, hp, he, h1, h2, h3, h4, h5, h6, hmin2]

/-- C2, evaluated at `misalignedRun`: joint 1 is re-read 45 away from its default target,
the running minimum of the check is 0, and `startupBot` still returns true, marks the robot
running and never calls `power(false)`. -/
theorem C2_startupBot_accepts_misaligned_joint :
    |sevenJoints.defaultPosition.getD 1 0 - (misalignedRun.replies 6).angles.getD 1 0| = 45 ∧
    minAngleLoop sevenJoints (misalignedRun.replies 6).angles
      (maxAngleLoop sevenJoints (misalignedRun.replies 2).angles 0) = 0 ∧
    (startupBot sevenJoints misalignedRun).1 = true ∧
    isBotUpAndReady (startupBot sevenJoints misalignedRun).2 = true ∧
    newEvents misalignedRun (startupBot sevenJoints misalignedRun).2 =
      [Event.link Call.info true, Event.link Call.setupBot true,
       Event.link Call.getAngles true, Event.link (Call.power true) true,
       Event.link Call.enableBot true,
       Event.link (Call.move [0, 0, 0, 0, 0, 0, 0] 1500) true, Event.delay 1700,
       Event.link Call.getAngles true] := by
  have h1 : maxAngleLoop sevenJoints (misalignedRun.replies 2).angles 0 = 30 := by
    norm_num [maxAngleLoop, sevenJoints, misalignedRun, freshBot, Reply.readAngles,
      List.range_succ]
  have h2 : minAngleLoop sevenJoints (misalignedRun.replies 6).angles 30 = 0 := by
    norm_num [minAngleLoop, sevenJoints, misalignedRun, freshBot, Reply.readAngles,
      List.range_succ]
  have h3 := startupBot_success_run sevenJoints misalignedRun (by decide) (by decide)
    (by decide) (by decide) (by decide) (by decide) (by decide) (by decide) (by decide)
    (by rw [h1, h2]; norm_num)
  rw [h1] at h3
  refine ⟨?_, by rw [h1, h2], h3.1, h3.2.1, h3.2.2.trans ?_⟩
  · norm_num [sevenJoints, misalignedRun, freshBot, Reply.readAngles]
  · norm_num [sevenJoints]

/-! ## Sample scheduler: one call -/

theorem toUInt32_eq (x : Int) (h0 : 0 ≤ x) (h1 : x < 4294967296) :
    (toUInt32 x : Int) = x := by
  unfold toUInt32
  rw [Int.emod_eq_of_lt h0 h1]
  exact Int.toNat_of_nonneg h0

theorem notifyNewPose_closed (pPose : Pose) (now : Nat) (s : TrajectoryExecution)
    (h : gateOpen now s = false) :
    notifyNewPose pPose now s = { s with nodeNamesSet := s.nodeNamesSet + 1 } := by
  simp [notifyNewPose, h]

theorem notifyNewPose_open (pPose : Pose) (now : Nat) (s : TrajectoryExecution)
    (h : gateOpen now s = true) :
    (notifyNewPose pPose now s).lastLoopInvocation =
      (if s.lastLoopInvocation < toUInt32 (now - s.sampleRate) then now
       else toUInt32 (s.lastLoopInvocation + s.sampleRate)) ∧
    (notifyNewPose pPose now s).trace =
      s.trace ++ Event.link Call.communicationOk (s.replies 0).ok ::
        (if (s.replies 0).ok then
          [Event.link (Call.move pPose.angles (commandedDuration s)) (s.replies 1).ok]
         else []) ∧
    (notifyNewPose pPose now s).heartbeatSend = ((s.replies 0).ok && (s.replies 1).ok) := by
  unfold notifyNewPose commandedDuration
  simp only [h, if_true]
  split_ifs <;> simp_all [TrajectoryExecution.linkCall]

theorem notifyNewPose_sampleRate (pPose : Pose) (now : Nat) (s : TrajectoryExecution) :
    (notifyNewPose pPose now s).sampleRate = s.sampleRate := by
  unfold notifyNewPose
  simp only []
  split_ifs <;> simp [TrajectoryExecution.linkCall]

/-- Without wrap-around the gate is the comparison of the plain numbers. -/
theorem gateOpen_iff (now : Nat) (s : TrajectoryExecution) (hP : 0 ≤ s.sampleRate)
    (hw : s.lastLoopInvocation + s.sampleRate < 4294967296) :
    gateOpen now s = true ↔ s.lastLoopInvocation + s.sampleRate ≤ now := by
  have h := toUInt32_eq (s.lastLoopInvocation + s.sampleRate) (by omega) hw
  unfold gateOpen
  simp only [decide_eq_true_eq]
  omega

/-- Without wrap-around a call that passes the gate leaves `lastLoopInvocation = now`. -/
theorem notifyNewPose_resync (pPose : Pose) (now : Nat) (s : TrajectoryExecution)
    (hP : 0 ≤ s.sampleRate) (hw : s.lastLoopInvocation + s.sampleRate < 4294967296)
    (hnow : now < 4294967296) (hgate : s.lastLoopInvocation + s.sampleRate ≤ now) :
    (notifyNewPose pPose now s).lastLoopInvocation = now := by
  have hg := (gateOpen_iff now s hP hw).mpr hgate
  have h1 := toUInt32_eq (s.lastLoopInvocation + s.sampleRate) (by omega) hw
  have h2 := toUInt32_eq (now - s.sampleRate) (by omega) (by omega)
  rw [(notifyNewPose_open pPose now s hg).1]
  split_ifs <;> omega

/-- C10: on a call of `notifyNewPose` that passes the gate, if `communicationOk()` answers
false no `move` is issued and `heartbeatSend` becomes false; if it answers true exactly one
`move` is issued, with the pose's angles, and `heartbeatSend` becomes the boolean that
`move` returned. -/
theorem C10_heartbeat_tracks_send (pPose : Pose) (now : Nat) (s : TrajectoryExecution)
    (hgate : gateOpen now s = true) :
    ((s.replies 0).ok = false →
      newEvents s (notifyNewPose pPose now s) = [Event.link Call.communicationOk false] ∧
      (notifyNewPose pPose now s).heartbeatSend = false) ∧
    ((s.replies 0).ok = true →
      newEvents s (notifyNewPose pPose now s) =
        [Event.link Call.communicationOk true,
         Event.link (Call.move pPose.angles (commandedDuration s)) (s.replies 1).ok] ∧
      (notifyNewPose pPose now s).heartbeatSend = (s.replies 1).ok) := by
  obtain ⟨-, h2, h3⟩ := notifyNewPose_open pPose now s hgate
  constructor <;>
  · intro h
    simp [newEvents, h2, h3, h]

/-- C10 at a link that is down and at a link whose `move` fails, both at time 20 with
period 20. -/
theorem C10_heartbeat_tracks_send_witness :
    (gateOpen 20 linkDownRun = true ∧ (linkDownRun.replies 0).ok = false ∧
      newEvents linkDownRun (notifyNewPose ⟨[1, 2]⟩ 20 linkDownRun) =
        [Event.link Call.communicationOk false] ∧
      (notifyNewPose ⟨[1, 2]⟩ 20 linkDownRun).heartbeatSend = false) ∧
    (gateOpen 20 moveFailsRun = true ∧ (moveFailsRun.replies 0).ok = true ∧
      newEvents moveFailsRun (notifyNewPose ⟨[1, 2]⟩ 20 moveFailsRun) =
        [Event.link Call.communicationOk true,
         Event.link (Call.move [1, 2] (commandedDuration moveFailsRun))
           (moveFailsRun.replies 1).ok] ∧
      (notifyNewPose ⟨[1, 2]⟩ 20 moveFailsRun).heartbeatSend = (moveFailsRun.replies 1).ok) :=
  ⟨⟨by decide, by decide,
      (C10_heartbeat_tracks_send ⟨[1, 2]⟩ 20 linkDownRun (by decide)).1 (by decide)⟩,
    ⟨by decide, by decide,
      (C10_heartbeat_tracks_send ⟨[1, 2]⟩ 20 moveFailsRun (by decide)).2 (by decide)⟩⟩

/-! ## Sample scheduler: the update of `lastLoopInvocation` -/

theorem newEvents_self (s : TrajectoryExecution) : newEvents s s = [] := by
  simp [newEvents]

theorem notifyNewPose_open_events (pPose : Pose) (now : Nat) (s : TrajectoryExecution)
    (h : gateOpen now s = true) :
    Extends s (notifyNewPose pPose now s) ∧
    gateCount (newEvents s (notifyNewPose pPose now s)) = 1 ∧
    moveCount (newEvents s (notifyNewPose pPose now s)) ≤ 1 := by
  obtain ⟨-, h2, -⟩ := notifyNewPose_open pPose now s h
  refine ⟨?_, ?_, ?_⟩
  · simp [Extends, newEvents, h2]
  · simp only [newEvents, h2, List.drop_left, gateCount]
    split_ifs <;> simp [List.countP_cons, Event.isCommunicationOk]
  · simp only [newEvents, h2, List.drop_left, moveCount]
    split_ifs <;> simp [List.countP_cons, Event.isMove]

theorem notifyNewPose_closed_events (pPose : Pose) (now : Nat) (s : TrajectoryExecution)
    (h : gateOpen now s = false) :
    (notifyNewPose pPose now s).trace = s.trace ∧
    (notifyNewPose pPose now s).lastLoopInvocation = s.lastLoopInvocation ∧
    (notifyNewPose pPose now s).heartbeatSend = s.heartbeatSend ∧
    newEvents s (notifyNewPose pPose now s) = [] := by
  rw [notifyNewPose_closed pPose now s h]
  simp [newEvents]

/-- C9: when `notifyNewPose` is called more than two periods after `lastLoopInvocation`
(no wrap-around), that call sets `lastLoopInvocation` to `now` and forwards at most one
`move`; the call that follows it at any time before `now + P` makes no link call at all
and leaves `lastLoopInvocation` at `now`. -/
theorem C9_stall_resync (pPose pPose2 : Pose) (now now2 : Nat) (s : TrajectoryExecution)
    (hP : 0 ≤ s.sampleRate) (hnow : now + s.sampleRate < 4294967296)
    (hstall : s.lastLoopInvocation + 2 * s.sampleRate < now)
    (h2 : now2 < now + s.sampleRate) :
    (notifyNewPose pPose now s).lastLoopInvocation = now ∧
    moveCount (newEvents s (notifyNewPose pPose now s)) ≤ 1 ∧
    newEvents (notifyNewPose pPose now s)
      (notifyNewPose pPose2 now2 (notifyNewPose pPose now s)) = [] ∧
    (notifyNewPose pPose2 now2 (notifyNewPose pPose now s)).lastLoopInvocation = now := by
  have hw : s.lastLoopInvocation + s.sampleRate < 4294967296 := by omega
  have hg := (gateOpen_iff now s hP hw).mpr (by omega)
  have h3 := notifyNewPose_resync pPose now s hP hw (by omega) (by omega)
  have h4 := notifyNewPose_sampleRate pPose now s
  have h5 : gateOpen now2 (notifyNewPose pPose now s) = false := by
    rw [Bool.eq_false_iff]
    intro hc
    rw [gateOpen_iff now2 _ (by rw [h4]; exact hP) (by rw [h3, h4]; exact hnow)] at hc
    rw [h3, h4] at hc
    omega
  obtain ⟨-, h6, -, h7⟩ := notifyNewPose_closed_events pPose2 now2 _ h5
  exact ⟨h3, (notifyNewPose_open_events pPose now s hg).2.2, h7, h6.trans h3⟩

/-- C9 with period 10 from `lastLoopInvocation = 0`: a call at 25, then a call at 34. -/
theorem C9_stall_resync_witness :
    (notifyNewPose ⟨[]⟩ 25 period10).lastLoopInvocation = 25 ∧
    moveCount (newEvents period10 (notifyNewPose ⟨[]⟩ 25 period10)) ≤ 1 ∧
    newEvents (notifyNewPose ⟨[]⟩ 25 period10)
      (notifyNewPose ⟨[]⟩ 34 (notifyNewPose ⟨[]⟩ 25 period10)) = [] ∧
    (notifyNewPose ⟨[]⟩ 34 (notifyNewPose ⟨[]⟩ 25 period10)).lastLoopInvocation = 25 :=
  C9_stall_resync ⟨[]⟩ ⟨[]⟩ 25 34 period10 (by decide) (by decide) (by decide) (by decide)

/-! ## Heartbeat -/

theorem notifyNewPose_extends (pPose : Pose) (now : Nat) (s : TrajectoryExecution) :
    Extends s (notifyNewPose pPose now s) := by
  cases h : gateOpen now s
  · simp [Extends, (notifyNewPose_closed_events pPose now s h).1,
      (notifyNewPose_closed_events pPose now s h).2.2.2]
  · exact (notifyNewPose_open_events pPose now s h).1

theorem notifyNewPose_heartbeat_le (pPose : Pose) (now : Nat) (s : TrajectoryExecution) :
    (notifyNewPose pPose now s).heartbeatSend.toNat ≤
      okMoveCount (newEvents s (notifyNewPose pPose now s)) + s.heartbeatSend.toNat := by
  cases h : gateOpen now s
  · obtain ⟨-, -, h3, h4⟩ := notifyNewPose_closed_events pPose now s h
    simp [h3, h4, okMoveCount]
  · obtain ⟨-, h2, h3⟩ := notifyNewPose_open pPose now s h
    simp only [newEvents, h2, h3, List.drop_left, okMoveCount]
    cases (s.replies 0).ok <;> cases (s.replies 1).ok <;>
      simp [List.countP_cons, Event.isMoveOk]

theorem heartBeatSendOp_spec (s : TrajectoryExecution) :
    (heartBeatSendOp s).1 = s.heartbeatSend ∧
    (heartBeatSendOp s).2.heartbeatSend = false ∧
    (heartBeatSendOp s).2.trace = s.trace := by
  unfold heartBeatSendOp
  cases h : s.heartbeatSend <;> simp [h]

theorem runOps_heartbeat_le (ops : List SchedulerOp) :
    ∀ s : TrajectoryExecution, Extends s (runOps ops s).2 ∧
      (runOps ops s).1.count true + (runOps ops s).2.heartbeatSend.toNat ≤
        okMoveCount (newEvents s (runOps ops s).2) + s.heartbeatSend.toNat := by
  induction ops with
  | nil =>
    intro s
    simp [runOps, Extends, newEvents, okMoveCount]
  | cons op ops ih =>
    intro s
    cases op with
    | notify pPose now =>
      obtain ⟨h1, h2⟩ := ih (notifyNewPose pPose now s)
      obtain ⟨h3, h4⟩ := (notifyNewPose_extends pPose now s).trans_events h1
      have h5 := notifyNewPose_heartbeat_le pPose now s
      refine ⟨h3, ?_⟩
      simp only [runOps]
      rw [h4]
      simp only [okMoveCount, List.countP_append] at h2 h5 ⊢
      omega
    | heartBeat =>
      obtain ⟨h1, h2⟩ := ih (heartBeatSendOp s).2
      obtain ⟨h3, h4, h5⟩ := heartBeatSendOp_spec s
      have h6 : ∀ u, newEvents (heartBeatSendOp s).2 u = newEvents s u := by
        intro u
        simp [newEvents, h5]
      simp only [runOps]
      rw [h6] at h2
      refine ⟨?_, ?_⟩
      · unfold Extends at h1 ⊢
        rw [h6, h5] at h1
        exact h1
      · rw [h4] at h2
        rw [h3]
        cases s.heartbeatSend <;> simp [List.count_cons] at h2 ⊢ <;> omega

/-- C5: `heartBeatSendOp` returns the current value of `heartbeatSend` and leaves it false,
so a second call right after it returns false; and over every interleaving of
`notifyNewPose` and `heartBeatSendOp` calls that starts with `heartbeatSend` false, the
number of true results is at most the number of `move` commands that succeeded. -/
theorem C5_heartbeat_one_shot (s : TrajectoryExecution) (ops : List SchedulerOp) :
    (heartBeatSendOp s).1 = s.heartbeatSend ∧
    (heartBeatSendOp s).2.heartbeatSend = false ∧
    (heartBeatSendOp (heartBeatSendOp s).2).1 = false ∧
    (s.heartbeatSend = false →
      (runOps ops s).1.count true ≤ okMoveCount (newEvents s (runOps ops s).2)) := by
  obtain ⟨h1, h2, -⟩ := heartBeatSendOp_spec s
  refine ⟨h1, h2, ?_, ?_⟩
  · rw [(heartBeatSendOp_spec _).1, h2]
  · intro h
    have h3 := (runOps_heartbeat_le ops s).2
    rw [h] at h3
    simp at h3
    omega

/-- C5 at one forwarded pose followed by two heartbeat queries: the results are true, then
false, and one `move` succeeded. -/
theorem C5_heartbeat_one_shot_witness :
    (freshBot 20 []).heartbeatSend = false ∧
    (runOps heartbeatOps (freshBot 20 [])).1 = [true, false] ∧
    (runOps heartbeatOps (freshBot 20 [])).1.count true ≤
      okMoveCount (newEvents (freshBot 20 []) (runOps heartbeatOps (freshBot 20 [])).2) :=
  ⟨by decide, by decide, (C5_heartbeat_one_shot (freshBot 20 []) heartbeatOps).2.2.2 (by decide)⟩

/-! ## Rate limit -/

theorem notifyNewPose_last_le (pPose : Pose) (now B : Nat) (s : TrajectoryExecution)
    (h1 : s.lastLoopInvocation ≤ B) (h2 : now ≤ B) :
    (notifyNewPose pPose now s).lastLoopInvocation ≤ B := by
  cases h : gateOpen now s
  · rw [(notifyNewPose_closed_events pPose now s h).2.1]
    exact h1
  · rw [(notifyNewPose_open pPose now s h).1]
    unfold gateOpen at h
    simp only [decide_eq_true_eq] at h
    split_ifs <;> omega

theorem notifyAll_last_le (calls : List (Nat × Pose)) (B : Nat) :
    ∀ s : TrajectoryExecution, s.lastLoopInvocation ≤ B → (∀ c ∈ calls, c.1 ≤ B) →
      (notifyAll calls s).lastLoopInvocation ≤ B := by
  induction calls with
  | nil => intro s h _; exact h
  | cons c cs ih =>
    intro s h1 h2
    exact ih _ (notifyNewPose_last_le c.2 c.1 B s h1 (h2 c (List.mem_cons_self _ _)))
      (fun d hd => h2 d (List.mem_cons_of_mem _ hd))

theorem notifyAll_sampleRate (calls : List (Nat × Pose)) :
    ∀ s : TrajectoryExecution, (notifyAll calls s).sampleRate = s.sampleRate := by
  induction calls with
  | nil => intro s; rfl
  | cons c cs ih =>
    intro s
    exact (ih _).trans (notifyNewPose_sampleRate c.2 c.1 s)

/-- Calls that all come before `lastLoopInvocation + sampleRate` make no link call. -/
theorem notifyAll_quiet (calls : List (Nat × Pose)) :
    ∀ s : TrajectoryExecution, 0 ≤ s.sampleRate →
      s.lastLoopInvocation + s.sampleRate < 4294967296 →
      (∀ c ∈ calls, (c.1 : Int) < s.lastLoopInvocation + s.sampleRate) →
      (notifyAll calls s).trace = s.trace := by
  induction calls with
  | nil => intro s _ _ _; rfl
  | cons c cs ih =>
    intro s hP hw hq
    have hc : gateOpen c.1 s = false := by
      rw [Bool.eq_false_iff]
      intro hg
      rw [gateOpen_iff c.1 s hP hw] at hg
      have := hq c (List.mem_cons_self _ _)
      omega
    obtain ⟨h1, h2, -, -⟩ := notifyNewPose_closed_events c.2 c.1 s hc
    have h3 := notifyNewPose_sampleRate c.2 c.1 s
    have h4 := ih (notifyNewPose c.2 c.1 s) (by rw [h3]; exact hP) (by rw [h2, h3]; exact hw)
      (by rw [h2, h3]; exact fun d hd => hq d (List.mem_cons_of_mem _ hd))
    exact h4.trans h1

theorem newEvents_congr {s t u : TrajectoryExecution} (h : t.trace = u.trace) :
    newEvents s t = newEvents s u := by
  simp [newEvents, h]

theorem newEvents_congr_left {s t u : TrajectoryExecution} (h : s.trace = t.trace) :
    newEvents s u = newEvents t u := by
  simp [newEvents, h]

/-- Calls that lie within a span shorter than the period, none of them before
`lastLoopInvocation`: at most one passes the gate, at most one `move` is forwarded. -/
theorem notifyAll_span (seg : List (Nat × Pose)) :
    ∀ s : TrajectoryExecution, 0 ≤ s.sampleRate →
      (∀ c ∈ seg, s.lastLoopInvocation ≤ c.1 ∧ (c.1 : Int) + s.sampleRate < 4294967296) →
      (∀ a ∈ seg, ∀ b ∈ seg, (b.1 : Int) < a.1 + s.sampleRate) →
      gateCount (newEvents s (notifyAll seg s)) ≤ 1 ∧
      moveCount (newEvents s (notifyAll seg s)) ≤ 1 := by
  induction seg with
  | nil =>
    intro s _ _ _
    simp [notifyAll, newEvents_self, gateCount, moveCount]
  | cons c cs ih =>
    intro s hP hin hspan
    obtain ⟨hc1, hc2⟩ := hin c (List.mem_cons_self _ _)
    have hw : s.lastLoopInvocation + s.sampleRate < 4294967296 := by omega
    have h3 := notifyNewPose_sampleRate c.2 c.1 s
    cases hg : gateOpen c.1 s
    · obtain ⟨h1, h2, -, -⟩ := notifyNewPose_closed_events c.2 c.1 s hg
      have h4 := ih (notifyNewPose c.2 c.1 s) (by rw [h3]; exact hP)
        (by rw [h2, h3]; exact fun d hd => hin d (List.mem_cons_of_mem _ hd))
        (by rw [h3]; exact fun a ha b hb =>
          hspan a (List.mem_cons_of_mem _ ha) b (List.mem_cons_of_mem _ hb))
      rw [newEvents_congr_left h1] at h4
      exact h4
    · have h5 := notifyNewPose_resync c.2 c.1 s hP hw (by omega)
        ((gateOpen_iff c.1 s hP hw).mp hg)
      have h6 := notifyAll_quiet cs (notifyNewPose c.2 c.1 s) (by rw [h3]; exact hP)
        (by rw [h5, h3]; exact hc2)
        (by rw [h5, h3]; exact fun d hd =>
          hspan c (List.mem_cons_self _ _) d (List.mem_cons_of_mem _ hd))
      obtain ⟨-, h7, h8⟩ := notifyNewPose_open_events c.2 c.1 s hg
      simp only [notifyAll]
      rw [newEvents_congr h6]
      exact ⟨h7.le, h8⟩

/-- C1: start from `lastLoopInvocation = 0` with a sample period `P > 0` and call
`notifyNewPose` at non-decreasing clock readings without 32-bit wrap-around.  Among the
calls `seg` whose readings lie within a span shorter than `P` (after any earlier calls
`pre`), at most one passes the gate and at most one forwards a `move` to the link. -/
theorem C1_rate_limit (P : Int) (hP : 0 < P) (s0 : TrajectoryExecution)
    (h0 : s0.lastLoopInvocation = 0) (hr : s0.sampleRate = P)
    (pre seg : List (Nat × Pose))
    (hmono : List.Pairwise (fun a b => a ≤ b) ((pre ++ seg).map Prod.fst))
    (hwrap : ∀ c ∈ pre ++ seg, (c.1 : Int) + P < 4294967296)
    (hspan : ∀ a ∈ seg, ∀ b ∈ seg, (b.1 : Int) < a.1 + P) :
    gateCount (newEvents (notifyAll pre s0) (notifyAll seg (notifyAll pre s0))) ≤ 1 ∧
    moveCount (newEvents (notifyAll pre s0) (notifyAll seg (notifyAll pre s0))) ≤ 1 := by
  have hrate : (notifyAll pre s0).sampleRate = P := (notifyAll_sampleRate pre s0).trans hr
  rw [List.map_append, List.pairwise_append] at hmono
  obtain ⟨-, -, hcross⟩ := hmono
  apply notifyAll_span seg (notifyAll pre s0) (by rw [hrate]; exact hP.le)
  · intro c hc
    refine ⟨?_, by rw [hrate]; exact hwrap c (List.mem_append_right _ hc)⟩
    apply notifyAll_last_le pre c.1 s0 (by rw [h0]; exact Nat.zero_le _)
    intro d hd
    exact hcross d.1 (List.mem_map_of_mem _ hd) c.1 (List.mem_map_of_mem _ hc)
  · rw [hrate]
    exact hspan

/-- C1 with period 20: after calls at 0 and 20, the calls at 40, 45 and 59 pass the gate
at most once. -/
theorem C1_rate_limit_witness :
    gateCount (newEvents (notifyAll earlierCalls (freshBot 20 []))
      (notifyAll burstCalls (notifyAll earlierCalls (freshBot 20 [])))) ≤ 1 ∧
    moveCount (newEvents (notifyAll earlierCalls (freshBot 20 []))
      (notifyAll burstCalls (notifyAll earlierCalls (freshBot 20 [])))) ≤ 1 :=
  C1_rate_limit 20 (by decide) (freshBot 20 []) (by decide) (by decide) earlierCalls burstCalls
    (by decide) (by decide) (by decide)

/-! ## Teardown -/

theorem foldl_max_isMax (f : Nat → ℚ) (l : List Nat) :
    ∀ m0 : ℚ, m0 ≤ l.foldl (fun m i => max m (f i)) m0 ∧
      (∀ i ∈ l, f i ≤ l.foldl (fun m i => max m (f i)) m0) ∧
      (l.foldl (fun m i => max m (f i)) m0 = m0 ∨
        ∃ i ∈ l, l.foldl (fun m i => max m (f i)) m0 = f i) := by
  induction l with
  | nil => intro m0; simp
  | cons a l ih =>
    intro m0
    obtain ⟨h1, h2, h3⟩ := ih (max m0 (f a))
    simp only [List.foldl_cons]
    refine ⟨le_trans (le_max_left _ _) h1, ?_, ?_⟩
    · intro i hi
      rcases List.mem_cons.mp hi with rfl | hi
      · exact le_trans (le_max_right _ _) h1
      · exact h2 i hi
    · rcases h3 with h3 | ⟨i, hi, h3⟩
      · rcases max_cases m0 (f a) with ⟨h4, -⟩ | ⟨h4, -⟩
        · left; rw [h3, h4]
        · right; exact ⟨a, List.mem_cons_self _ _, by rw [h3, h4]⟩
      · right; exact ⟨i, List.mem_cons_of_mem _ hi, h3⟩

/-- The loop of the lifecycle code, started from 0, computes the maximum over the joints. -/
theorem maxAngleLoop_isMax (cfg : BotConfig) (state : List ℚ) :
    IsMaxJointDistance cfg state (maxAngleLoop cfg state 0) := by
  obtain ⟨h1, h2, h3⟩ := foldl_max_isMax
    (fun i => |cfg.defaultPosition.getD i 0 - state.getD i 0|)
    (List.range cfg.NumberOfActuators) 0
  refine ⟨h1, fun i hi => h2 i (List.mem_range.mpr hi), fun hN => ?_⟩
  rcases h3 with h3 | ⟨i, hi, h3⟩
  · refine ⟨0, hN, ?_⟩
    have h4 := h2 0 (List.mem_range.mpr hN)
    unfold maxAngleLoop
    rw [h3] at h4 ⊢
    exact le_antisymm (abs_nonneg _) h4
  · exact ⟨i, List.mem_range.mp hi, h3⟩

/-- C11: for every prior state and all replies of the link, `teardownBot` leaves the
running flag false and its last event is the link call `power(false)`; it returns false
exactly when the status query fails, or the status is fully up and `getAngles` fails, so
what `move` and `power(false)` report has no influence. -/
theorem C11_teardownBot_ends_powered_off (cfg : BotConfig) (s : TrajectoryExecution) :
    isBotUpAndReady (teardownBot cfg s).2 = false ∧
    (∃ ok, (newEvents s (teardownBot cfg s).2).getLast? =
      some (Event.link (Call.power false) ok)) ∧
    ((teardownBot cfg s).1 = false ↔
      ((s.replies 0).ok = false ∨
        ((s.replies 0).fullyUp = true ∧ (s.replies 1).ok = false))) ∧
    ((teardownBot cfg s).1 = true ↔
      ((s.replies 0).ok = true ∧
        ((s.replies 0).fullyUp = false ∨ (s.replies 1).ok = true))) := by
  cases h0 : (s.replies 0).ok <;> cases hp : (s.replies 0).powered <;>
    cases he : (s.replies 0).enabled <;> cases hs : (s.replies 0).setuped <;>
    cases h1 : (s.replies 1).ok <;>
    simp [teardownBot, newEvents, isBotUpAndReady, Reply.fullyUp,
      TrajectoryExecution.linkCall, TrajectoryExecution.delay, h0, hp, he, hs, h1]

/-- C16: after a successful status query, `teardownBot` calls `getAngles` exactly when
the status is fully up.  When it is and the read succeeds, the events are the query, the
read, one `move` to the default position with duration `d`, the wait of exactly `d` and
`power(false)`, where `d` is 200 plus the maximum joint distance (in degrees) divided by
20 and multiplied by 1000; when the read fails only `power(false)` follows; when the status
is not fully up `power(false)` follows the query directly. -/
theorem C16_teardownBot_homing_move (cfg : BotConfig) (s : TrajectoryExecution)
    (h0 : (s.replies 0).ok = true) :
    ((s.replies 0).fullyUp = true → (s.replies 1).ok = true →
      newEvents s (teardownBot cfg s).2 =
        [Event.link Call.info true, Event.link Call.getAngles true,
         Event.link (Call.move cfg.defaultPosition
           (teardownDuration cfg (s.replies 1).angles)) (s.replies 2).ok,
         Event.delay (teardownDuration cfg (s.replies 1).angles),
         Event.link (Call.power false) (s.replies 3).ok]) ∧
    ((s.replies 0).fullyUp = true → (s.replies 1).ok = false →
      newEvents s (teardownBot cfg s).2 =
        [Event.link Call.info true, Event.link Call.getAngles false,
         Event.link (Call.power false) (s.replies 2).ok]) ∧
    ((s.replies 0).fullyUp = false →
      newEvents s (teardownBot cfg s).2 =
        [Event.link Call.info true, Event.link (Call.power false) (s.replies 1).ok]) ∧
    (∀ a, teardownDuration cfg a = 200 + cfg.degrees (maxAngleLoop cfg a 0) / 20 * 1000 ∧
      IsMaxJointDistance cfg a (maxAngleLoop cfg a 0)) := by
  refine ⟨?_, ?_, ?_, fun a => ⟨rfl, maxAngleLoop_isMax cfg a⟩⟩
  · intro h1 h2
    simp [Reply.fullyUp] at h1
    simp [teardownBot, teardownDuration, newEvents, TrajectoryExecution.linkCall,
      TrajectoryExecution.delay, h0, h1, h2]
  · intro h1 h2
    simp [Reply.fullyUp] at h1
    simp [teardownBot, newEvents, TrajectoryExecution.linkCall,
      TrajectoryExecution.delay, h0, h1, h2]
  · intro h1
    simp only [Reply.fullyUp] at h1
    simp [teardownBot, newEvents, TrajectoryExecution.linkCall,
      TrajectoryExecution.delay, h0, h1]

/-- C16 at three runs with two joints: the robot fully up with joint 0 at 30 (the move
and the wait last 1700 ms), the robot fully up with a failing read, and the robot not
enabled. -/
theorem C16_teardownBot_homing_move_witness :
    (newEvents teardownRun (teardownBot twoJoints teardownRun).2 =
        [Event.link Call.info true, Event.link Call.getAngles true,
         Event.link (Call.move twoJoints.defaultPosition
           (teardownDuration twoJoints (teardownRun.replies 1).angles))
           (teardownRun.replies 2).ok,
         Event.delay (teardownDuration twoJoints (teardownRun.replies 1).angles),
         Event.link (Call.power false) (teardownRun.replies 3).ok] ∧
      teardownDuration twoJoints (teardownRun.replies 1).angles = 1700) ∧
    newEvents teardownAnglesFailRun (teardownBot twoJoints teardownAnglesFailRun).2 =
      [Event.link Call.info true, Event.link Call.getAngles false,
       Event.link (Call.power false) (teardownAnglesFailRun.replies 2).ok] ∧
    newEvents teardownIdleRun (teardownBot twoJoints teardownIdleRun).2 =
      [Event.link Call.info true,
       Event.link (Call.power false) (teardownIdleRun.replies 1).ok] :=
  ⟨⟨(C16_teardownBot_homing_move twoJoints teardownRun (by decide)).1 (by decide) (by decide),
      by norm_num [teardownDuration, maxAngleLoop, twoJoints, teardownRun, freshBot,
        Reply.readAngles, List.range_succ]⟩,
    (C16_teardownBot_homing_move twoJoints teardownAnglesFailRun (by decide)).2.1
      (by decide) (by decide),
    (C16_teardownBot_homing_move twoJoints teardownIdleRun (by decide)).2.2.1 (by decide)⟩

/-! ## Sample scheduler: the commanded duration -/

theorem commandedDuration_eq (s : TrajectoryExecution) (hP : 0 ≤ s.sampleRate)
    (hov : s.sampleRate * 200 < 2147483648) : commandedDuration s = 2 * s.sampleRate := by
  have h1 : toInt32 (s.sampleRate * 200) = s.sampleRate * 200 := by
    unfold toInt32
    omega
  have h2 : s.sampleRate * 200 = (2 * s.sampleRate) * 100 := by ring
  unfold commandedDuration
  rw [h1, h2, Int.mul_tdiv_cancel _ (by norm_num)]

/-- C14: for a sample period `P >= 0` with `200*P` inside the range of `int`, the duration
that `notifyNewPose` computes and hands to `move` is exactly `2*P`, hence never less than
the sample period. -/
theorem C14_commanded_duration (pPose : Pose) (now : Nat) (s : TrajectoryExecution)
    (hP : 0 ≤ s.sampleRate) (hov : s.sampleRate * 200 < 2147483648) :
    commandedDuration s = 2 * s.sampleRate ∧
    s.sampleRate ≤ commandedDuration s ∧
    (gateOpen now s = true → (s.replies 0).ok = true →
      newEvents s (notifyNewPose pPose now s) =
        [Event.link Call.communicationOk true,
         Event.link (Call.move pPose.angles ((2 * s.sampleRate : Int) : ℚ))
           (s.replies 1).ok]) := by
  have h1 := commandedDuration_eq s hP hov
  refine ⟨h1, by omega, fun hg hc => ?_⟩
  obtain ⟨-, h2, -⟩ := notifyNewPose_open pPose now s hg
  simp [newEvents, h2, hc, h1]

/-- C14 with period 20 at time 20: the gate is open, the link is up, the duration is 40. -/
theorem C14_commanded_duration_witness :
    commandedDuration (freshBot 20 []) = 2 * (freshBot 20 []).sampleRate ∧
    (freshBot 20 []).sampleRate ≤ commandedDuration (freshBot 20 []) ∧
    newEvents (freshBot 20 []) (notifyNewPose ⟨[1, 2]⟩ 20 (freshBot 20 [])) =
      [Event.link Call.communicationOk true,
       Event.link (Call.move [1, 2] ((2 * (freshBot 20 []).sampleRate : Int) : ℚ))
         ((freshBot 20 []).replies 1).ok] :=
  ⟨(C14_commanded_duration ⟨[1, 2]⟩ 20 (freshBot 20 []) (by decide) (by decide)).1,
    (C14_commanded_duration ⟨[1, 2]⟩ 20 (freshBot 20 []) (by decide) (by decide)).2.1,
    (C14_commanded_duration ⟨[1, 2]⟩ 20 (freshBot 20 []) (by decide) (by decide)).2.2
      (by decide) (by decide)⟩

/-! ## Sample scheduler: the update as an unconditional resync -/

/-- C18: without 32-bit wrap-around and with a period `P >= 0`, `notifyNewPose` does what
the version with an unconditional resync does.  When the gate passes, the new
`lastLoopInvocation` is `now`, and the branch that adds the period is taken only when
`lastLoopInvocation + P = now`; when the gate does not pass, `lastLoopInvocation` and
`heartbeatSend` keep their values and no event is recorded. -/
theorem C18_update_is_resync (pPose : Pose) (now : Nat) (s : TrajectoryExecution)
    (hP : 0 ≤ s.sampleRate) (hw : s.lastLoopInvocation + s.sampleRate < 4294967296)
    (hnow : now < 4294967296) :
    notifyNewPose pPose now s = notifyNewPoseResync pPose now s ∧
    (gateOpen now s = true →
      (notifyNewPose pPose now s).lastLoopInvocation = now ∧
      (¬ s.lastLoopInvocation < toUInt32 (now - s.sampleRate) →
        (s.lastLoopInvocation : Int) + s.sampleRate = now)) ∧
    (gateOpen now s = false →
      (notifyNewPose pPose now s).lastLoopInvocation = s.lastLoopInvocation ∧
      (notifyNewPose pPose now s).heartbeatSend = s.heartbeatSend ∧
      newEvents s (notifyNewPose pPose now s) = []) := by
  refine ⟨?_, ?_, ?_⟩
  · cases hg : gateOpen now s
    · simp [notifyNewPose, notifyNewPoseResync, hg]
    · have hgate := (gateOpen_iff now s hP hw).mp hg
      have h1 := toUInt32_eq (s.lastLoopInvocation + s.sampleRate) (by omega) hw
      have h2 := toUInt32_eq (now - s.sampleRate) (by omega) (by omega)
      by_cases h4 : s.lastLoopInvocation < toUInt32 (now - s.sampleRate)
      · simp [notifyNewPose, notifyNewPoseResync, hg, h4]
      · have h5 : toUInt32 (s.lastLoopInvocation + s.sampleRate) = now := by omega
        simp [notifyNewPose, notifyNewPoseResync, hg, h4, h5]
  · intro hg
    have hgate := (gateOpen_iff now s hP hw).mp hg
    refine ⟨notifyNewPose_resync pPose now s hP hw hnow hgate, fun h4 => ?_⟩
    have h2 := toUInt32_eq (now - s.sampleRate) (by omega) (by omega)
    omega
  · intro hg
    obtain ⟨-, h2, h3, h4⟩ := notifyNewPose_closed_events pPose now s hg
    exact ⟨h2, h3, h4⟩

/-- C18 with period 10 from `lastLoopInvocation = 30`: at 45 the gate passes and the
update is a resync, at 35 the gate stays shut and the pending heartbeat is kept. -/
theorem C18_update_is_resync_witness :
    (notifyNewPose ⟨[]⟩ 45 pendingAt30 = notifyNewPoseResync ⟨[]⟩ 45 pendingAt30 ∧
      (notifyNewPose ⟨[]⟩ 45 pendingAt30).lastLoopInvocation = 45) ∧
    ((notifyNewPose ⟨[]⟩ 35 pendingAt30).lastLoopInvocation = pendingAt30.lastLoopInvocation ∧
      (notifyNewPose ⟨[]⟩ 35 pendingAt30).heartbeatSend = pendingAt30.heartbeatSend ∧
      newEvents pendingAt30 (notifyNewPose ⟨[]⟩ 35 pendingAt30) = []) :=
  ⟨⟨(C18_update_is_resync ⟨[]⟩ 45 pendingAt30 (by decide) (by decide) (by decide)).1,
      ((C18_update_is_resync ⟨[]⟩ 45 pendingAt30 (by decide) (by decide) (by decide)).2.1
        (by decide)).1⟩,
    (C18_update_is_resync ⟨[]⟩ 35 pendingAt30 (by decide) (by decide) (by decide)).2.2
      (by decide)⟩

/-! ## Startup: the shape of a run -/

theorem startupHoming_shape (cfg : BotConfig) (a : List ℚ) (s : TrajectoryExecution) :
    HomingShape cfg a (newEvents s (startupHoming cfg a s).2) := by
  cases h0 : (s.replies 0).ok <;> cases h1 : (s.replies 1).ok <;>
    cases h2 : (s.replies 2).ok <;>
    simp [startupHoming, HomingShape, homingDuration, newEvents,
      TrajectoryExecution.linkCall, TrajectoryExecution.delay, h0, h1, h2] <;>
    split_ifs <;>
    simp [newEvents, h2]

theorem startupEnable_shape (cfg : BotConfig) (a : List ℚ) (s : TrajectoryExecution) :
    EnableShape cfg a (newEvents s (startupEnable cfg a s).2) := by
  unfold startupEnable
  simp only []
  split_ifs with h1
  · simp [TrajectoryExecution.linkCall] at h1
    simp [EnableShape, newEvents, TrajectoryExecution.linkCall, h1]
  · simp [TrajectoryExecution.linkCall] at h1
    obtain ⟨e1, e2⟩ := linkCall_events s Call.enableBot
    obtain ⟨e3, -⟩ := startupHoming_events cfg a (s.linkCall Call.enableBot).2
    obtain ⟨-, e4⟩ := e1.trans_events e3
    refine Or.inr ⟨_, startupHoming_shape cfg a (s.linkCall Call.enableBot).2, ?_⟩
    rw [e4, e2, h1]
    rfl

theorem startupSetup_shape (cfg : BotConfig) (powered : Bool) (s : TrajectoryExecution) :
    SetupShape cfg (s.replies 1).angles powered
      (newEvents s (startupSetup cfg powered s).2) := by
  unfold startupSetup
  simp only []
  split_ifs with h1 h2 h3 h4
  · simp [TrajectoryExecution.linkCall] at h1
    simp [SetupShape, newEvents, TrajectoryExecution.linkCall, h1]
  · simp [TrajectoryExecution.linkCall] at h1 h2
    simp [SetupShape, newEvents, TrajectoryExecution.linkCall, h1, h2]
  · simp [TrajectoryExecution.linkCall] at h1 h2 h4
    simp at h3
    simp [SetupShape, newEvents, TrajectoryExecution.linkCall, h1, h2, h3, h4]
  · simp [TrajectoryExecution.linkCall] at h1 h2 h4
    simp at h3
    have e1 : Extends s (((({ s with botIsUpAndRunning := false } :
        TrajectoryExecution).linkCall Call.setupBot).2.linkCall Call.getAngles).2.linkCall
        (Call.power true)).2 := by
      simp [Extends, newEvents, TrajectoryExecution.linkCall]
    obtain ⟨h5, -⟩ := startupEnable_events cfg (s.replies 1).angles
      (((({ s with botIsUpAndRunning := false } : TrajectoryExecution).linkCall
        Call.setupBot).2.linkCall Call.getAngles).2.linkCall (Call.power true)).2
    have h6 := startupEnable_shape cfg (s.replies 1).angles
      (((({ s with botIsUpAndRunning := false } : TrajectoryExecution).linkCall
        Call.setupBot).2.linkCall Call.getAngles).2.linkCall (Call.power true)).2
    obtain ⟨-, h9⟩ := e1.trans_events h5
    refine Or.inr (Or.inr (Or.inr ⟨_, h6, ?_⟩))
    refine h9.trans ?_
    simp [newEvents, TrajectoryExecution.linkCall, h1, h2, h3, h4]
  · simp [TrajectoryExecution.linkCall] at h1 h2
    simp at h3
    have e1 : Extends s ((({ s with botIsUpAndRunning := false } :
        TrajectoryExecution).linkCall Call.setupBot).2.linkCall Call.getAngles).2 := by
      simp [Extends, newEvents, TrajectoryExecution.linkCall]
    obtain ⟨h5, -⟩ := startupEnable_events cfg (s.replies 1).angles
      ((({ s with botIsUpAndRunning := false } : TrajectoryExecution).linkCall
        Call.setupBot).2.linkCall Call.getAngles).2
    have h6 := startupEnable_shape cfg (s.replies 1).angles
      ((({ s with botIsUpAndRunning := false } : TrajectoryExecution).linkCall
        Call.setupBot).2.linkCall Call.getAngles).2
    obtain ⟨-, h9⟩ := e1.trans_events h5
    refine Or.inr (Or.inr (Or.inr ⟨_, h6, ?_⟩))
    refine h9.trans ?_
    simp [newEvents, TrajectoryExecution.linkCall, h1, h2, h3]

theorem startupBot_shape (cfg : BotConfig) (s : TrajectoryExecution) :
    StartupShape cfg s (newEvents s (startupBot cfg s).2) := by
  unfold startupBot
  simp only []
  split_ifs with h1
  · have e1 : Extends s ((({ (s.linkCall Call.info).2 with botIsUpAndRunning := false } :
        TrajectoryExecution).linkCall Call.disableBot).2.linkCall Call.info).2 := by
      simp [Extends, newEvents, TrajectoryExecution.linkCall]
    obtain ⟨h2, -⟩ := startupSetup_events cfg (s.replies 2).powered
      ((({ (s.linkCall Call.info).2 with botIsUpAndRunning := false } :
        TrajectoryExecution).linkCall Call.disableBot).2.linkCall Call.info).2
    have h3 := startupSetup_shape cfg (s.replies 2).powered
      ((({ (s.linkCall Call.info).2 with botIsUpAndRunning := false } :
        TrajectoryExecution).linkCall Call.disableBot).2.linkCall Call.info).2
    obtain ⟨-, h5⟩ := e1.trans_events h2
    refine Or.inr ⟨h1, _, h3, ?_⟩
    refine h5.trans ?_
    simp [newEvents, TrajectoryExecution.linkCall]
  · obtain ⟨e1, e2⟩ := linkCall_events s Call.info
    obtain ⟨h2, -⟩ := startupSetup_events cfg (s.replies 0).powered (s.linkCall Call.info).2
    have h3 := startupSetup_shape cfg (s.replies 0).powered (s.linkCall Call.info).2
    obtain ⟨-, h5⟩ := e1.trans_events h2
    refine Or.inl ⟨by simpa [Reply.zombie] using h1, _, h3, ?_⟩
    refine h5.trans ?_
    rw [e2]
    rfl

theorem SetupShape.homingMoves {cfg : BotConfig} {a : List ℚ} {powered : Bool}
    {ev : List Event} (h : SetupShape cfg a powered ev) :
    HomingMoves cfg (homingDuration cfg a) ev ∧ ∀ e ∈ ev, e.isDisableBot = false := by
  rcases h with h | h | ⟨-, h⟩ | ⟨tail, h1, h⟩
  · subst h
    simp [HomingMoves, moveCount, delayCount, Event.isMove, Event.isDelay, Event.isDisableBot]
  · subst h
    simp [HomingMoves, moveCount, delayCount, Event.isMove, Event.isDelay, Event.isDisableBot]
  · subst h
    simp [HomingMoves, moveCount, delayCount, Event.isMove, Event.isDelay, Event.isDisableBot]
  · subst h
    rcases h1 with ⟨ok, h1⟩ | ⟨tail2, h2, h1⟩
    · subst h1
      cases powered <;>
        simp [HomingMoves, moveCount, delayCount, Event.isMove, Event.isDelay,
          Event.isDisableBot]
    · subst h1
      rcases h2 with ⟨ok, h2⟩ | ⟨okg, rest, h2, h3 | ⟨ok, h3⟩⟩
      · subst h2
        cases powered <;>
          simp [HomingMoves, moveCount, delayCount, Event.isMove, Event.isDelay,
            Event.isDisableBot]
      · subst h2 h3
        cases powered <;>
          simp [HomingMoves, moveCount, delayCount, Event.isMove, Event.isDelay,
            Event.isDisableBot]
      · subst h2 h3
        cases powered <;>
          simp [HomingMoves, moveCount, delayCount, Event.isMove, Event.isDelay,
            Event.isDisableBot]

theorem HomingMoves.cons {cfg : BotConfig} {d : ℚ} {ev : List Event} {e0 : Event}
    (h : HomingMoves cfg d ev) (h0 : e0.isMove = false) (h1 : e0.isDelay = false) :
    HomingMoves cfg d (e0 :: ev) := by
  obtain ⟨m1, m2, m3, m4, m5⟩ := h
  refine ⟨?_, ?_, ?_, ?_, ?_⟩
  · simpa [moveCount, List.countP_cons, h0] using m1
  · intro e he hm
    rcases List.mem_cons.mp he with rfl | he
    · rw [h0] at hm
      exact absurd hm (by decide)
    · exact m2 e he hm
  · simpa [delayCount, List.countP_cons, h1] using m3
  · intro e he hd
    rcases List.mem_cons.mp he with rfl | he
    · rw [h1] at hd
      exact absurd hd (by decide)
    · exact m4 e he hd
  · have n1 : Event.link (Call.move cfg.defaultPosition d) true ≠ e0 := by
      intro hc
      rw [← hc] at h0
      exact absurd h0 (by simp [Event.isMove])
    have n2 : Event.delay (d + 200) ≠ e0 := by
      intro hc
      rw [← hc] at h1
      exact absurd h1 (by simp [Event.isDelay])
    simp [List.mem_cons, n1, n2, m5]

theorem SetupShape.starts_with_setupBot {cfg : BotConfig} {a : List ℚ} {powered : Bool}
    {ev : List Event} (h : SetupShape cfg a powered ev) :
    ∃ ok rest, ev = Event.link Call.setupBot ok :: rest := by
  rcases h with h | h | ⟨-, h⟩ | ⟨tail, -, h⟩ <;> exact ⟨_, _, h⟩

/-- The scenario of the all-zero default position: joint 0 starts at 30, the others at 0,
angles held in degrees; the homing takes 1500 ms. -/
theorem homingDuration_scenario (cfg : BotConfig) (a : List ℚ)
    (hdeg : ∀ x, cfg.degrees x = x)
    (hdef : ∀ i, i < cfg.NumberOfActuators → cfg.defaultPosition.getD i 0 = 0)
    (hN : 0 < cfg.NumberOfActuators) (h0 : a.getD 0 0 = 30)
    (hrest : ∀ i, 0 < i → i < cfg.NumberOfActuators → a.getD i 0 = 0) :
    homingDuration cfg a = 1500 := by
  obtain ⟨-, h2, h3⟩ := maxAngleLoop_isMax cfg a
  have h4 := h2 0 hN
  rw [hdef 0 hN, h0] at h4
  obtain ⟨i, hi, h5⟩ := h3 hN
  have h6 : maxAngleLoop cfg a 0 = 30 := by
    rcases Nat.eq_zero_or_pos i with hz | hp
    · rw [h5, hz, hdef 0 hN, h0]
      norm_num
    · rw [h5, hdef i hi, hrest i hp hi] at h4
      norm_num at h4
  unfold homingDuration
  rw [hdeg, h6]
  norm_num

/-- C12: in every run of `startupBot` at most one `move` is issued, and it is the move to
the default position with the duration `degrees(maxAngleDiff)/20*1000`, where
`maxAngleDiff` is the maximum over the joints of `|default_i - initial_i|` for the angles
that the first `getAngles` read; `delay` is called exactly when that `move` succeeded, once,
with the duration plus 200.  For an all-zero default position, angles in degrees and the
initial angles `(30, 0, ..., 0)` the duration is 1500 and the wait 1700. -/
theorem C12_homing_duration (cfg : BotConfig) (s : TrajectoryExecution) :
    (moveCount (newEvents s (startupBot cfg s).2) ≤ 1 ∧
      (∀ e ∈ newEvents s (startupBot cfg s).2, e.isMove = true →
        ∃ ok, e = Event.link (Call.move cfg.defaultPosition
          (homingDuration cfg (startupInitialAngles s))) ok) ∧
      delayCount (newEvents s (startupBot cfg s).2) ≤ 1 ∧
      (∀ e ∈ newEvents s (startupBot cfg s).2, e.isDelay = true →
        e = Event.delay (homingDuration cfg (startupInitialAngles s) + 200)) ∧
      (Event.link (Call.move cfg.defaultPosition
          (homingDuration cfg (startupInitialAngles s))) true ∈
            newEvents s (startupBot cfg s).2 ↔
        Event.delay (homingDuration cfg (startupInitialAngles s) + 200) ∈
          newEvents s (startupBot cfg s).2)) ∧
    (homingDuration cfg (startupInitialAngles s) =
        cfg.degrees (maxAngleLoop cfg (startupInitialAngles s) 0) / 20 * 1000 ∧
      IsMaxJointDistance cfg (startupInitialAngles s)
        (maxAngleLoop cfg (startupInitialAngles s) 0)) ∧
    ((∀ x, cfg.degrees x = x) →
      (∀ i, i < cfg.NumberOfActuators → cfg.defaultPosition.getD i 0 = 0) →
      0 < cfg.NumberOfActuators → (startupInitialAngles s).getD 0 0 = 30 →
      (∀ i, 0 < i → i < cfg.NumberOfActuators → (startupInitialAngles s).getD i 0 = 0) →
      homingDuration cfg (startupInitialAngles s) = 1500 ∧
      homingDuration cfg (startupInitialAngles s) + 200 = 1700) := by
  refine ⟨?_, ⟨rfl, maxAngleLoop_isMax cfg _⟩, ?_⟩
  · have h : HomingMoves cfg (homingDuration cfg (startupInitialAngles s))
        (newEvents s (startupBot cfg s).2) := by
      rcases startupBot_shape cfg s with ⟨hz, rest, h1, h2⟩ | ⟨hz, rest, h1, h2⟩
      · rw [h2]
        simp only [startupInitialAngles, hz]
        refine HomingMoves.cons h1.homingMoves.1 ?_ ?_ <;> rfl
      · rw [h2]
        simp only [startupInitialAngles, hz]
        refine HomingMoves.cons (HomingMoves.cons (HomingMoves.cons h1.homingMoves.1 ?_ ?_)
          ?_ ?_) ?_ ?_ <;> rfl
    exact h
  · intro hdeg hdef hN h0 hrest
    have h := homingDuration_scenario cfg _ hdeg hdef hN h0 hrest
    rw [h]
    norm_num

/-- C13: when the first status query of `startupBot` succeeds and reports enabled and not
powered, the run starts with the query, `disableBot`, a second query and `setupBot`,
whatever the second query answers; otherwise `disableBot` is not called at all. -/
theorem C13_zombie_repair (cfg : BotConfig) (s : TrajectoryExecution) :
    ((s.replies 0).ok = true → (s.replies 0).enabled = true →
      (s.replies 0).powered = false →
      ∃ ok rest, newEvents s (startupBot cfg s).2 =
        Event.link Call.info true :: Event.link Call.disableBot (s.replies 1).ok ::
          Event.link Call.info (s.replies 2).ok :: Event.link Call.setupBot ok :: rest) ∧
    (¬ ((s.replies 0).ok = true ∧ (s.replies 0).enabled = true ∧
        (s.replies 0).powered = false) →
      ∀ e ∈ newEvents s (startupBot cfg s).2, e.isDisableBot = false) := by
  constructor
  · intro h1 h2 h3
    rcases startupBot_shape cfg s with ⟨hz, -⟩ | ⟨-, rest, h4, h5⟩
    · simp [Reply.zombie, h1, h2, h3] at hz
    · obtain ⟨ok, rest2, h6⟩ := h4.starts_with_setupBot
      exact ⟨ok, rest2, by rw [h5, h6, h1]⟩
  · intro h1
    rcases startupBot_shape cfg s with ⟨-, rest, h4, h5⟩ | ⟨hz, -⟩
    · rw [h5]
      intro e he
      rcases List.mem_cons.mp he with rfl | he
      · rfl
      · exact h4.homingMoves.2 e he
    · exfalso
      apply h1
      simp [Reply.zombie] at hz
      exact ⟨hz.1.1, hz.2, hz.1.2⟩

/-- C12 at `misalignedRun` with seven joints: the initial angles are `(30, 0, ..., 0)`,
the homing move lasts 1500 ms, it succeeds and the wait of 1700 ms follows. -/
theorem C12_homing_duration_witness :
    (homingDuration sevenJoints (startupInitialAngles misalignedRun) = 1500 ∧
      homingDuration sevenJoints (startupInitialAngles misalignedRun) + 200 = 1700) ∧
    (Event.link (Call.move sevenJoints.defaultPosition
        (homingDuration sevenJoints (startupInitialAngles misalignedRun))) true ∈
          newEvents misalignedRun (startupBot sevenJoints misalignedRun).2 ∧
      Event.delay (homingDuration sevenJoints (startupInitialAngles misalignedRun) + 200) ∈
        newEvents misalignedRun (startupBot sevenJoints misalignedRun).2) := by
  have h1 : maxAngleLoop sevenJoints (misalignedRun.replies 2).angles 0 = 30 := by
    norm_num [maxAngleLoop, sevenJoints, misalignedRun, freshBot, Reply.readAngles,
      List.range_succ]
  have h2 : minAngleLoop sevenJoints (misalignedRun.replies 6).angles 30 = 0 := by
    norm_num [minAngleLoop, sevenJoints, misalignedRun, freshBot, Reply.readAngles,
      List.range_succ]
  have h3 := (startupBot_success_run sevenJoints misalignedRun (by decide) (by decide)
    (by decide) (by decide) (by decide) (by decide) (by decide) (by decide) (by decide)
    (by rw [h1, h2]; norm_num)).2.2
  have h4 : Event.link (Call.move sevenJoints.defaultPosition
      (homingDuration sevenJoints (startupInitialAngles misalignedRun))) true ∈
        newEvents misalignedRun (startupBot sevenJoints misalignedRun).2 := by
    rw [h3]
    have h5 : startupInitialAngles misalignedRun = (misalignedRun.replies 2).angles := rfl
    simp [homingDuration, h5]
  exact ⟨(C12_homing_duration sevenJoints misalignedRun).2.2 (fun _ => rfl)
      (by intro i hi; change i < 7 at hi; interval_cases i <;> rfl) (by decide) rfl
      (by intro i h0 hi; change i < 7 at hi; interval_cases i <;> rfl),
    h4, (C12_homing_duration sevenJoints misalignedRun).1.2.2.2.2.mp h4⟩

/-- C13 at a zombie state that the repair does not cure, and at a run without one. -/
theorem C13_zombie_repair_witness :
    (∃ ok rest, newEvents zombieRun (startupBot twoJoints zombieRun).2 =
      Event.link Call.info true :: Event.link Call.disableBot (zombieRun.replies 1).ok ::
        Event.link Call.info (zombieRun.replies 2).ok ::
          Event.link Call.setupBot ok :: rest) ∧
    ∀ e ∈ newEvents poweredSetupFailRun (startupBot twoJoints poweredSetupFailRun).2,
      e.isDisableBot = false :=
  ⟨(C13_zombie_repair twoJoints zombieRun).1 (by decide) (by decide) (by decide),
    (C13_zombie_repair twoJoints poweredSetupFailRun).2 (by decide)⟩

/-! ## Startup: power before enable -/

/-- The run of `startupBot` in which the status query fails and leaves `powered` true,
every later call succeeds and the check of the reset position passes. -/
theorem startupBot_failed_query_run (cfg : BotConfig) (s : TrajectoryExecution)
    (h0 : (s.replies 0).ok = false) (hp : (s.replies 0).powered = true)
    (h1 : (s.replies 1).ok = true) (h2 : (s.replies 2).ok = true)
    (h3 : (s.replies 3).ok = true) (h4 : (s.replies 4).ok = true)
    (h5 : (s.replies 5).ok = true)
    (hmin : minAngleLoop cfg (s.replies 5).angles
      (maxAngleLoop cfg (s.replies 2).angles 0) ≤ 1) :
    (startupBot cfg s).1 = true ∧
    isBotUpAndReady (startupBot cfg s).2 = true ∧
    newEvents s (startupBot cfg s).2 =
      [Event.link Call.info false, Event.link Call.setupBot true,
       Event.link Call.getAngles true, Event.link Call.enableBot true,
       Event.link (Call.move cfg.defaultPosition
         (cfg.degrees (maxAngleLoop cfg (s.replies 2).angles 0) / 20 * 1000)) true,
       Event.delay (cfg.degrees (maxAngleLoop cfg (s.replies 2).angles 0) / 20 * 1000 + 200),
       Event.link Call.getAngles true] := by
  have hmin2 : ¬ (1 < minAngleLoop cfg (s.replies 5).angles
      (maxAngleLoop cfg (s.replies 2).angles 0)) := not_lt.mpr hmin
  simp [startupBot, startupSetup, startupEnable, startupHoming, isBotUpAndReady,
    newEvents, TrajectoryExecution.linkCall, TrajectoryExecution.delay,
    h0, hp, h1, h2, h3, h4, h5, hmin2]

/-- C19, evaluated at `blindStatusRun`: the only status query fails, `power(true)` is never
called, and `startupBot` still calls `enableBot`, homes the robot, returns true and marks
it running. -/
theorem C19_startupBot_enables_after_failed_query :
    (blindStatusRun.replies 0).ok = false ∧
    (startupBot sevenJoints blindStatusRun).1 = true ∧
    isBotUpAndReady (startupBot sevenJoints blindStatusRun).2 = true ∧
    newEvents blindStatusRun (startupBot sevenJoints blindStatusRun).2 =
      [Event.link Call.info false, Event.link Call.setupBot true,
       Event.link Call.getAngles true, Event.link Call.enableBot true,
       Event.link (Call.move [0, 0, 0, 0, 0, 0, 0] 0) true, Event.delay 200,
       Event.link Call.getAngles true] := by
  have h1 : maxAngleLoop sevenJoints (blindStatusRun.replies 2).angles 0 = 0 := by
    norm_num [maxAngleLoop, sevenJoints, blindStatusRun, freshBot, Reply.readAngles,
      List.range_succ]
  have h2 : minAngleLoop sevenJoints (blindStatusRun.replies 5).angles 0 = 0 := by
    norm_num [minAngleLoop, sevenJoints, blindStatusRun, freshBot, Reply.readAngles,
      List.range_succ]
  have h3 := startupBot_failed_query_run sevenJoints blindStatusRun (by decide) (by decide)
    (by decide) (by decide) (by decide) (by decide) (by decide)
    (by rw [h1, h2]; norm_num)
  rw [h1] at h3
  refine ⟨by decide, h3.1, h3.2.1, h3.2.2.trans ?_⟩
  norm_num [sevenJoints]

/-! ## Commands given as strings -/

/-- C15, evaluated at a failed parse: `runTrajectory` logs the error and still compiles and
plays the trajectory, `setPose` logs the error and still hands the pose to the player;
only `setAnglesAsString` stops, returns false and leaves the state as it was. -/
theorem C15_parse_failure_still_applies (pose : Pose) (angles : List ℚ) (now : Nat)
    (s : TrajectoryExecution) :
    runTrajectory false = [Effect.logError, Effect.compile, Effect.playTrajectory] ∧
    setPose false pose = [Effect.logError, Effect.playerSetPose pose] ∧
    (runTrajectory false).any Effect.isDownstream = true ∧
    (setPose false pose).any Effect.isDownstream = true ∧
    setAnglesAsString false angles now s = ((false, s), [Effect.logError]) := by
  simp [runTrajectory, setPose, setAnglesAsString, Effect.isDownstream]

theorem setAnglesAsString_ok (angles : List ℚ) (now : Nat) (s : TrajectoryExecution) :
    (setAnglesAsString true angles now s).1.1 =
      (notifyNewPose { angles := angles } now s).heartbeatSend ∧
    newEvents s (setAnglesAsString true angles now s).1.2 =
      newEvents s (notifyNewPose { angles := angles } now s) := by
  obtain ⟨h1, -, h3⟩ := heartBeatSendOp_spec (notifyNewPose { angles := angles } now s)
  simp only [setAnglesAsString, playerSetAngles, Bool.not_true, Bool.false_eq_true, if_false]
  exact ⟨h1, newEvents_congr h3⟩

/-- C17, as stated, fails: with a heartbeat pending from the pose the loop forwarded at
30 ms, `setAnglesAsString` called at 35 ms (period 10, gate shut) returns true although no
link call at all was made during that call. -/
theorem C17_counterexample :
    afterLoopSend.heartbeatSend = true ∧
    gateOpen 35 afterLoopSend = false ∧
    (setAnglesAsString true [1, 2] 35 afterLoopSend).1.1 = true ∧
    newEvents afterLoopSend (setAnglesAsString true [1, 2] 35 afterLoopSend).1.2 = [] := by
  decide

/-- C17, amended: `setAnglesAsString` returns true only if, during that same call, a `move`
with the parsed angles was forwarded to the link and reported success, or the gate did not
pass in that call and `heartbeatSend` was already true on entry; from a state with
`heartbeatSend` false it returns true only if the `move` of this call succeeded. -/
theorem C17_setAngles_reports_send_or_pending (ok : Bool) (angles : List ℚ) (now : Nat)
    (s : TrajectoryExecution) :
    ((setAnglesAsString ok angles now s).1.1 = true →
      Event.link (Call.move angles (commandedDuration s)) true ∈
          newEvents s (setAnglesAsString ok angles now s).1.2 ∨
        (gateOpen now s = false ∧ s.heartbeatSend = true ∧
          newEvents s (setAnglesAsString ok angles now s).1.2 = [])) ∧
    (s.heartbeatSend = false → (setAnglesAsString ok angles now s).1.1 = true →
      Event.link (Call.move angles (commandedDuration s)) true ∈
        newEvents s (setAnglesAsString ok angles now s).1.2) := by
  have key : (setAnglesAsString ok angles now s).1.1 = true →
      Event.link (Call.move angles (commandedDuration s)) true ∈
          newEvents s (setAnglesAsString ok angles now s).1.2 ∨
        (gateOpen now s = false ∧ s.heartbeatSend = true ∧
          newEvents s (setAnglesAsString ok angles now s).1.2 = []) := by
    cases ok
    · intro h
      simp [setAnglesAsString] at h
    · obtain ⟨h1, h2⟩ := setAnglesAsString_ok angles now s
      rw [h1, h2]
      intro h
      cases hg : gateOpen now s
      · obtain ⟨-, -, h5, h6⟩ := notifyNewPose_closed_events { angles := angles } now s hg
        exact Or.inr ⟨rfl, by rw [← h5]; exact h, h6⟩
      · obtain ⟨-, h5, h6⟩ := notifyNewPose_open { angles := angles } now s hg
        rw [h6] at h
        simp only [Bool.and_eq_true] at h
        left
        simp [newEvents, h5, h.1, h.2]
  refine ⟨key, fun h0 h => ?_⟩
  rcases key h with h1 | ⟨-, h2, -⟩
  · exact h1
  · rw [h0] at h2
    exact absurd h2 (by decide)

/-- C17, amended, at a fresh scheduler with period 20 called at 20 ms: the call returns
true and its `move` succeeded. -/
theorem C17_setAngles_reports_send_or_pending_witness :
    (freshBot 20 []).heartbeatSend = false ∧
    (setAnglesAsString true [1, 2] 20 (freshBot 20 [])).1.1 = true ∧
    Event.link (Call.move [1, 2] (commandedDuration (freshBot 20 []))) true ∈
      newEvents (freshBot 20 []) (setAnglesAsString true [1, 2] 20 (freshBot 20 [])).1.2 :=
  ⟨by decide, by decide,
    (C17_setAngles_reports_send_or_pending true [1, 2] 20 (freshBot 20 [])).2 (by decide)
      (by decide)⟩

end Walter
